import Mathlib

/-!
# Street-line detection firmware

A shallow embedding of

* `detect_street_lines` (`src/src/main.c`, lines 84-135) and the globals it works on
  (`street_lines`, `num_street_lines`, lines 19-31), followed further down by
* the sensor bring-up `OV7670_init` of `src/ov7670.c`,
* the register maps of `src/ov7670.h` and `src/src/ov7670.h`,
* the capture loop of `src/src/main.c`,
* the peripheral bring-up of `src/Street Line Detection/Core/Src/main.c`, and
* the DCMI MSP routines of `src/Street Line Detection/Core/Src/stm32h7xx_hal_msp.c`.

Modelling conventions for `detect_street_lines`.

* C `int` values are `Int`.  The only arithmetic the function performs is `width / 2`
  (C division, truncating toward zero: `Int.tdiv`) and at most ten increments of a
  counter that was just reset to `0`, so no 32-bit wrap-around can occur.
* `detect_line` and the five actuation routines (`stop_vehicle`, `turn_right`, `turn_left`,
  `slow_down`, `proceed_straight`) are called by `detect_street_lines` but defined nowhere
  in the repository.  `detect_line` is therefore a parameter: an arbitrary function of a
  hidden collaborator state, of its three value arguments, of the slot it is pointed at and
  of the current content of that slot, returning its `int` result, the content it leaves
  in the slot and the next hidden state.  It is assumed to touch the globals only through
  the pointer it is handed.  The actuation routines are observed through the sequence of
  commands they are called with.
* Two observation logs are kept next to the program state: the calls made to `detect_line`
  and the actuation commands issued.  Neither is ever read by the program.
-/

namespace StreetLine

/-- The C `struct street_line` (lines 19-27).  `slope` is a C `float`; it is carried as its
32-bit pattern because `detect_street_lines` never computes with it. -/
structure street_line where
  x1 : Int
  y1 : Int
  x2 : Int
  y2 : Int
  slope : Nat
  length : Int
deriving DecidableEq

/-- The five actuation routines `detect_street_lines` can call. -/
inductive Command where
  | Stop
  | TurnRight
  | TurnLeft
  | SlowDown
  | ProceedStraight
deriving DecidableEq

/-- The frame buffer handed to `detect_street_lines` (`uint8_t *image`). -/
abbrev Image := List Nat

/-- The two globals of lines 29-31: `struct street_line street_lines[10]` and
`int num_street_lines`. -/
structure Globals where
  street_lines : Fin 10 → street_line
  num_street_lines : Int

/-- What one call `detect_line(image, width, height, &street_lines[i])` leaves behind: its
`int` return value, the content of the slot it was pointed at, and the hidden state of the
collaborator. -/
structure DetectOutcome (σ : Type) where
  ret : Int
  line : street_line
  ext : σ

/-- The external routine `detect_line`: hidden state, image, width, height, the slot it is
pointed at and the content of that slot before the call. -/
abbrev DetectLine (σ : Type) :=
  σ → Image → Int → Int → Fin 10 → street_line → DetectOutcome σ

/-- One observed call of `detect_line`: its arguments, its return value and the content of
the slot after it returned. -/
structure Call where
  image : Image
  width : Int
  height : Int
  slot : Fin 10
  ret : Int
  line : street_line
deriving DecidableEq

/-- Program state during one call of `detect_street_lines`: the globals, the hidden state of
`detect_line`, and the two observation logs (oldest entry first). -/
structure Machine (σ : Type) where
  g : Globals
  ext : σ
  calls : List Call
  cmds : List Command

/-- Body of the `for` loop (lines 93-96) for loop index `i`. -/
def loop_body {σ : Type} (detect_line : DetectLine σ) (image : Image) (width height : Int)
    (m : Machine σ) (i : Fin 10) : Machine σ :=
  let r := detect_line m.ext image width height i (m.g.street_lines i)
  { g :=
      { street_lines := Function.update m.g.street_lines i r.line
        num_street_lines :=
          if r.ret ≠ 0 then m.g.num_street_lines + 1 else m.g.num_street_lines }
    ext := r.ext
    calls := m.calls ++ [⟨image, width, height, i, r.ret, r.line⟩]
    cmds := m.cmds }

/-- Lines 90-97: `num_street_lines = 0; for (int i = 0; i < 10; i++) { ... }`, started from
globals `g` and collaborator state `st` with empty logs. -/
def detection_loop {σ : Type} (detect_line : DetectLine σ) (image : Image)
    (width height : Int) (g : Globals) (st : σ) : Machine σ :=
  (List.finRange 10).foldl (loop_body detect_line image width height)
    { g := { street_lines := g.street_lines, num_street_lines := 0 }
      ext := st
      calls := []
      cmds := [] }

/-- A call of one actuation routine, observed in the command log. -/
def issue {σ : Type} (c : Command) (m : Machine σ) : Machine σ :=
  { m with cmds := m.cmds ++ [c] }

/-- The call `stop_vehicle()`. -/
def stop_vehicle {σ : Type} (m : Machine σ) : Machine σ := issue Command.Stop m

/-- The call `turn_right()`. -/
def turn_right {σ : Type} (m : Machine σ) : Machine σ := issue Command.TurnRight m

/-- The call `turn_left()`. -/
def turn_left {σ : Type} (m : Machine σ) : Machine σ := issue Command.TurnLeft m

/-- The call `slow_down()`. -/
def slow_down {σ : Type} (m : Machine σ) : Machine σ := issue Command.SlowDown m

/-- The call `proceed_straight()`. -/
def proceed_straight {σ : Type} (m : Machine σ) : Machine σ :=
  issue Command.ProceedStraight m

/-- Lines 100-134: the decision taken on the globals the loop left behind. -/
def control {σ : Type} (width : Int) (m : Machine σ) : Machine σ :=
  if m.g.num_street_lines = 0 then
    stop_vehicle m
  else if m.g.num_street_lines = 1 then
    if (m.g.street_lines 0).x1 < Int.tdiv width 2 then
      slow_down (turn_right m)
    else
      slow_down (turn_left m)
  else
    if (m.g.street_lines 0).x1 < Int.tdiv width 2
        ∧ (m.g.street_lines 1).x1 > Int.tdiv width 2 then
      proceed_straight m
    else
      slow_down m

/-- The function `detect_street_lines(image, width, height)` of lines 84-135, run on globals
`g` with `detect_line` in hidden state `st`.  (The file carries an earlier definition of the
same name at lines 48-54 whose body is empty; the one with a body is embedded here.) -/
def detect_street_lines {σ : Type} (detect_line : DetectLine σ) (image : Image)
    (width height : Int) (g : Globals) (st : σ) : Machine σ :=
  control width (detection_loop detect_line image width height g st)

/-! ## Concrete inputs used by the checks below -/

/-- The all-zero segment (the initial content of a C global). -/
def zero_line : street_line := ⟨0, 0, 0, 0, 0, 0⟩

/-- Globals as they are at program start: zero-initialised. -/
def zero_globals : Globals := ⟨fun _ => zero_line, 0⟩

/-- A segment starting at column `x`. -/
def line_at (x : Int) : street_line := ⟨x, 0, x, 10, 0, 10⟩

/-- A stateless `detect_line` that never finds a line and leaves its slot alone. -/
def detect_none : DetectLine Unit := fun _ _ _ _ _ s => ⟨0, s, ()⟩

/-- A stateless `detect_line` that finds a line starting at column `x` when pointed at slot
0 and nothing elsewhere. -/
def detect_first (x : Int) : DetectLine Unit := fun _ _ _ _ i s =>
  if i = 0 then ⟨1, line_at x, ()⟩ else ⟨0, s, ()⟩

/-- A stateless `detect_line` that finds a line starting at column `a` when pointed at slot
0, one starting at column `b` when pointed at slot 1, and nothing elsewhere. -/
def detect_two (a b : Int) : DetectLine Unit := fun _ _ _ _ i s =>
  if i = 0 then ⟨1, line_at a, ()⟩ else if i = 1 then ⟨1, line_at b, ()⟩ else ⟨0, s, ()⟩

/-- A stateless `detect_line` that finds a line starting at column `x` when pointed at slot
1 and nothing elsewhere; a slot in which it finds nothing is left as it was. -/
def detect_second (x : Int) : DetectLine Unit := fun _ _ _ _ i s =>
  if i = 1 then ⟨1, line_at x, ()⟩ else ⟨0, s, ()⟩

/-- Globals left over from an earlier cycle: slot 0 still holds a segment starting at
column `x`. -/
def stale_globals (x : Int) : Globals :=
  ⟨fun i => if i = 0 then line_at x else zero_line, 1⟩

/-- A stateless `detect_line` that finds in every slot `i` a segment of length `i + 1`. -/
def detect_growing : DetectLine Unit := fun _ _ _ _ i _ =>
  ⟨1, ⟨(i : Nat), 0, (i : Nat), (i : Nat) + 1, 0, (i : Nat) + 1⟩, ()⟩

/-- A stateless `detect_line` that finds in every slot `i` a segment of length `10 - i`. -/
def detect_shrinking : DetectLine Unit := fun _ _ _ _ i _ =>
  ⟨1, ⟨(i : Nat), 0, (i : Nat), 10 - (i : Nat), 0, 10 - (i : Nat)⟩, ()⟩

/-- The first `num_street_lines` entries of `street_lines` are ordered by non-increasing
`length`. -/
def sorted_by_length (g : Globals) : Prop :=
  ∀ i j : Fin 10, i ≤ j → ((j : Nat) : Int) < g.num_street_lines →
    (g.street_lines j).length ≤ (g.street_lines i).length

/-- `detect_line` is deterministic on one frame: for each slot, its return value is fixed,
and what it leaves in the slot is a fixed overwrite of some (possibly none, possibly all) of
the fields of the slot, so that overwriting twice is the same as overwriting once.  Neither
depends on the hidden state. -/
def Deterministic {σ : Type} (detect_line : DetectLine σ) (image : Image)
    (width height : Int) : Prop :=
  ∀ i : Fin 10, ∃ (ret : Int) (write : street_line → street_line),
    (∀ s, write (write s) = write s) ∧
    ∀ (st : σ) (s : street_line),
      (detect_line st image width height i s).ret = ret ∧
      (detect_line st image width height i s).line = write s

/-- A segment is non-degenerate: `length > 0` and `(x1, y1) != (x2, y2)`. -/
def nondegenerate (s : street_line) : Prop :=
  0 < s.length ∧ (s.x1, s.y1) ≠ (s.x2, s.y2)

/-- Non-degeneracy is a comparison of integers, hence decidable. -/
instance nondegenerate_decidable (s : street_line) : Decidable (nondegenerate s) := by
  unfold nondegenerate
  infer_instance

/-- A stateless `detect_line` that reports success for every slot and leaves in it a
segment whose two endpoints coincide and whose `length` is `0`. -/
def detect_flat : DetectLine Unit := fun _ _ _ _ _ _ => ⟨1, ⟨5, 5, 5, 5, 0, 0⟩, ()⟩

/-! ## The OV7670 driver of `src/ov7670.c`

`OV7670_init` (lines 15-43) is thirteen consecutive calls of the vendor routine
`HAL_I2C_Master_Transmit(OV7670_I2C, DevAddress, pData, Size, Timeout)`.  That routine and
its status type live in the vendor HAL, not in the repository, so the routine is a
parameter: an arbitrary function of a hidden bus state and of the transmission requested,
returning a status and the next bus state.  `assert_param` (line 18) is a HAL macro without
effect on the transmissions and is not modelled. -/

/-- Modelled from the spec: the status a HAL routine returns (`HAL_StatusTypeDef`, declared
in the vendor HAL and absent from the sources): `HAL_OK`, or one of the values that signal a
failure. -/
inductive HAL_StatusTypeDef where
  | HAL_OK
  | HAL_ERROR
  | HAL_BUSY
  | HAL_TIMEOUT
deriving DecidableEq

/-- The value `OV7670_WRITE_ADDRESS` (`src/ov7670.h`, line 20). -/
def OV7670_WRITE_ADDRESS : Nat := 0x42

/-- The value `OV7670_TIMEOUT` (`src/ov7670.h`, line 32). -/
def OV7670_TIMEOUT : Nat := 15

/-- The value `OV7670_COM7_SOFT_RESET` (`src/ov7670.h`, line 1648). -/
def OV7670_COM7_SOFT_RESET : Nat := 0x80

/-- The value `OV7670_CLKRC_RESET_VALUE` (line 1656). -/
def OV7670_CLKRC_RESET_VALUE : Nat := 0x01

/-- The value `OV7670_TSLB_RESET_VALUE` (line 1663). -/
def OV7670_TSLB_RESET_VALUE : Nat := 0x04

/-- The value `OV7670_COM7_RESET_VALUE` (line 1670). -/
def OV7670_COM7_RESET_VALUE : Nat := 0x0

/-- The value `OV7670_HSTART_RESET_VALUE` (line 1677). -/
def OV7670_HSTART_RESET_VALUE : Nat := 0x13

/-- The value `OV7670_HSTOP_RESET_VALUE` (line 1684). -/
def OV7670_HSTOP_RESET_VALUE : Nat := 0x01

/-- The value `OV7670_HREF_RESET_VALUE` (line 1691). -/
def OV7670_HREF_RESET_VALUE : Nat := 0xB6

/-- The value `OV7670_VSTART_RESET_VALUE` (line 1698). -/
def OV7670_VSTART_RESET_VALUE : Nat := 0x02

/-- The value `OV7670_VSTOP_RESET_VALUE` (line 1705). -/
def OV7670_VSTOP_RESET_VALUE : Nat := 0x7A

/-- The value `OV7670_VREF_RESET_VALUE` (line 1712). -/
def OV7670_VREF_RESET_VALUE : Nat := 0x0A

/-- The value `OV7670_COM14_RESET_VALUE` (line 1719). -/
def OV7670_COM14_RESET_VALUE : Nat := 0x0

/-- The value `OV7670_SCALING_XSC_RESET_VALUE` (line 1726). -/
def OV7670_SCALING_XSC_RESET_VALUE : Nat := 0x3A

/-- The value `OV7670_SCALING_PCLK_DIV_RESET_VALUE` (line 1733). -/
def OV7670_SCALING_PCLK_DIV_RESET_VALUE : Nat := 0xF0

/-- What one call `HAL_I2C_Master_Transmit(hi2c, DevAddress, pData, Size, Timeout)` asks the
bus to send: the device address, the `Size` bytes found at `pData`, `Size` and the
timeout. -/
structure I2C_Transmit where
  DevAddress : Nat
  pData : List Nat
  Size : Nat
  Timeout : Nat
deriving DecidableEq

/-- The external routine `HAL_I2C_Master_Transmit`: hidden bus state and the transmission
requested; it answers with a status and the next bus state. -/
abbrev I2C_Master (σ : Type) := σ → I2C_Transmit → HAL_StatusTypeDef × σ

/-- State of one run of `OV7670_init`: the hidden bus state, the transmissions requested so
far with the status each got (oldest first), and the value returned, if any. -/
structure InitRun (σ : Type) where
  bus : σ
  log : List (I2C_Transmit × HAL_StatusTypeDef)
  ret : Option Bool

/-- One statement `HAL_I2C_Master_Transmit(OV7670_I2C, OV7670_WRITE_ADDRESS, &v, sizeof(v),
OV7670_TIMEOUT);` for a `static uint8_t v`: the payload is the single byte `v`, and the
status returned is dropped. -/
def HAL_I2C_Master_Transmit {σ : Type} (hal : I2C_Master σ) (DevAddress v Timeout : Nat)
    (r : InitRun σ) : InitRun σ :=
  { bus := (hal r.bus ⟨DevAddress, [v], 1, Timeout⟩).2
    log := r.log ++ [(⟨DevAddress, [v], 1, Timeout⟩, (hal r.bus ⟨DevAddress, [v], 1, Timeout⟩).1)]
    ret := r.ret }

/-- The function `OV7670_init` of `src/ov7670.c` (lines 15-43), run on a bus in state `bus`.
The body has no `return` statement, so no value is returned. -/
def OV7670_init {σ : Type} (hal : I2C_Master σ) (bus : σ) : InitRun σ :=
  (⟨bus, [], none⟩ : InitRun σ)
    |> HAL_I2C_Master_Transmit hal OV7670_WRITE_ADDRESS OV7670_COM7_SOFT_RESET OV7670_TIMEOUT
    |> HAL_I2C_Master_Transmit hal OV7670_WRITE_ADDRESS OV7670_CLKRC_RESET_VALUE OV7670_TIMEOUT
    |> HAL_I2C_Master_Transmit hal OV7670_WRITE_ADDRESS OV7670_TSLB_RESET_VALUE OV7670_TIMEOUT
    |> HAL_I2C_Master_Transmit hal OV7670_WRITE_ADDRESS OV7670_COM7_RESET_VALUE OV7670_TIMEOUT
    |> HAL_I2C_Master_Transmit hal OV7670_WRITE_ADDRESS OV7670_HSTART_RESET_VALUE OV7670_TIMEOUT
    |> HAL_I2C_Master_Transmit hal OV7670_WRITE_ADDRESS OV7670_HSTOP_RESET_VALUE OV7670_TIMEOUT
    |> HAL_I2C_Master_Transmit hal OV7670_WRITE_ADDRESS OV7670_HREF_RESET_VALUE OV7670_TIMEOUT
    |> HAL_I2C_Master_Transmit hal OV7670_WRITE_ADDRESS OV7670_VSTART_RESET_VALUE OV7670_TIMEOUT
    |> HAL_I2C_Master_Transmit hal OV7670_WRITE_ADDRESS OV7670_VSTOP_RESET_VALUE OV7670_TIMEOUT
    |> HAL_I2C_Master_Transmit hal OV7670_WRITE_ADDRESS OV7670_VREF_RESET_VALUE OV7670_TIMEOUT
    |> HAL_I2C_Master_Transmit hal OV7670_WRITE_ADDRESS OV7670_COM14_RESET_VALUE OV7670_TIMEOUT
    |> HAL_I2C_Master_Transmit hal OV7670_WRITE_ADDRESS OV7670_SCALING_XSC_RESET_VALUE
        OV7670_TIMEOUT
    |> HAL_I2C_Master_Transmit hal OV7670_WRITE_ADDRESS OV7670_SCALING_PCLK_DIV_RESET_VALUE
        OV7670_TIMEOUT

/-- The thirteen transmissions of `OV7670_init`, in program order. -/
def OV7670_init_transmissions : List I2C_Transmit :=
  [⟨0x42, [0x80], 1, 15⟩, ⟨0x42, [0x01], 1, 15⟩, ⟨0x42, [0x04], 1, 15⟩, ⟨0x42, [0x00], 1, 15⟩,
   ⟨0x42, [0x13], 1, 15⟩, ⟨0x42, [0x01], 1, 15⟩, ⟨0x42, [0xB6], 1, 15⟩, ⟨0x42, [0x02], 1, 15⟩,
   ⟨0x42, [0x7A], 1, 15⟩, ⟨0x42, [0x0A], 1, 15⟩, ⟨0x42, [0x00], 1, 15⟩, ⟨0x42, [0x3A], 1, 15⟩,
   ⟨0x42, [0xF0], 1, 15⟩]

/-- A bus on which every transmission succeeds. -/
def bus_ok : I2C_Master Unit := fun _ _ => (HAL_StatusTypeDef.HAL_OK, ())

/-- A bus that counts the transmissions it was asked for and fails the first one with
`HAL_ERROR`; the later ones succeed. -/
def bus_first_fails : I2C_Master Nat := fun n _ =>
  (if n = 0 then HAL_StatusTypeDef.HAL_ERROR else HAL_StatusTypeDef.HAL_OK, n + 1)

/-! ## The two register maps

Both headers name the control registers of the sensor.  Each table lists, in header order,
the register name (the part of the identifier that stands for `<NAME>`) with the address the
header gives it. -/

/-- The register-address constants `OV7670_<NAME>_ADDRESS` of `src/ov7670.h` (lines
34-1622), in header order; `OV7670_WRITE_ADDRESS` and `OV7670_READ_ADDRESS`, the two bus
addresses of the device, are not register addresses and are left out. -/
def OV7670_ADDRESS : List (String × Nat) :=
  [("COM1", 0x04), ("COM2", 0x09), ("COM3", 0x0C), ("COM4", 0x0D), ("COM5", 0x0E),
   ("COM6", 0x0F), ("COM7", 0x12), ("COM8", 0x13), ("COM9", 0x14), ("COM10", 0x15),
   ("COM11", 0x3B), ("COM12", 0x3C), ("COM13", 0x3D), ("COM14", 0x3E), ("COM15", 0x40),
   ("COM16", 0x41), ("COM17", 0x42), ("GAIN", 0x00), ("BLUE_GAIN", 0x01), ("RED_GAIN", 0x02),
   ("VREF", 0x03), ("BAVE", 0x05), ("GBAVE", 0x06), ("AECHH", 0x07), ("RAVE", 0x08),
   ("PID", 0x0A), ("VER", 0x0B), ("AECH", 0x10), ("CLKRC", 0x11), ("RSVD_16", 0x16),
   ("HSTART", 0x17), ("HSTOP", 0x18), ("VSTART", 0x19), ("VSTOP", 0x1A), ("PSHIFT", 0x1B),
   ("MIDH", 0x1C), ("MIDL", 0x1D), ("MVFP", 0x1E), ("LAEC", 0x1F), ("ADCCTR0", 0x20),
   ("ADCCTR1", 0x21), ("ADCCTR2", 0x22), ("ADCCTR3", 0x23), ("AEW", 0x24), ("AEB", 0x25),
   ("VPT", 0x26), ("BBIAS", 0x27), ("GBBIAS", 0x28), ("RSVD_29", 0x29), ("EXHCH", 0x2A),
   ("EXHCL", 0x2B), ("RBIAS", 0x2C), ("ADVFL", 0x2D), ("ADVFH", 0x2E), ("YAVE", 0x2F),
   ("HSYST", 0x30), ("HSYSN", 0x31), ("HREF", 0x32), ("CHLF", 0x33), ("ARBLM", 0x34),
   ("RSVD_35", 0x35), ("RSVD_36", 0x36), ("ADC", 0x37), ("ACOM", 0x38), ("OFON", 0x39),
   ("TSLB", 0x3A), ("EDGE", 0x3F), ("AWBC1", 0x43), ("AWBC2", 0x44), ("AWBC3", 0x45),
   ("AWBC4", 0x46), ("AWBC5", 0x47), ("AWBC6", 0x48), ("RSVD_49", 0x49), ("RSVD_4A", 0x4A),
   ("REG4B", 0x4B), ("DNSTH", 0x4C), ("RSVD_4D", 0x4D), ("RSVD_4E", 0x4E), ("MTX1", 0x4F),
   ("MTX2", 0x50), ("MTX3", 0x51), ("MTX4", 0x52), ("MTX5", 0x53), ("MTX6", 0x54),
   ("BRIGHT", 0x55), ("CONTRAS", 0x56), ("CONTRAS_CENTER", 0x57), ("MTXS", 0x58),
   ("RSVD_59", 0x59), ("RSVD_5A", 0x5A), ("RSVD_5B", 0x5B), ("RSVD_5C", 0x5C),
   ("RSVD_5D", 0x5D), ("RSVD_5E", 0x5E), ("RSVD_5F", 0x5F), ("RSVD_60", 0x60),
   ("RSVD_61", 0x61), ("LCC1", 0x62), ("LCC2", 0x63), ("LCC3", 0x64), ("LCC4", 0x65),
   ("LCC5", 0x66), ("MANU", 0x67), ("MANV", 0x68), ("GFIX", 0x69), ("GGAIN", 0x6A),
   ("DBLV", 0x6B), ("AWBCTR3", 0x6C), ("AWBCTR2", 0x6D), ("AWBCTR1", 0x6E), ("AWBCTR0", 0x6F),
   ("SCALING_XSC", 0x70), ("SCALING_YSC", 0x71), ("SCALING_DCWCTR", 0x72),
   ("SCALING_PCLK_DIV", 0x73), ("REG74", 0x74), ("REG75", 0x75), ("REG76", 0x76),
   ("REG77", 0x77), ("RSVD_78", 0x78), ("RSVD_79", 0x79), ("SLOP", 0x7A), ("GAM1", 0x7B),
   ("GAM2", 0x7C), ("GAM3", 0x7D), ("GAM4", 0x7E), ("GAM5", 0x7F), ("GAM6", 0x80),
   ("GAM7", 0x81), ("GAM8", 0x82), ("GAM9", 0x83), ("GAM10", 0x84), ("GAM11", 0x85),
   ("GAM12", 0x86), ("GAM13", 0x87), ("GAM14", 0x88), ("GAM15", 0x89), ("RSVD_8A", 0x8A),
   ("RSVD_8B", 0x8B), ("RGB444", 0x8C), ("RSVD_8D", 0x8D), ("RSVD_8E", 0x8E),
   ("RSVD_8F", 0x8F), ("RSVD_90", 0x90), ("RSVD_91", 0x91), ("DM_LNL", 0x92), ("DM_LNH", 0x93),
   ("LCC6", 0x94), ("LCC7", 0x95), ("RSVD_96", 0x96), ("RSVD_97", 0x97), ("RSVD_98", 0x98),
   ("RSVD_99", 0x99), ("RSVD_9A", 0x9A), ("RSVD_9B", 0x9B), ("RSVD_9C", 0x9C),
   ("BD50ST", 0x9D), ("BD60ST", 0x9E), ("HAECC1", 0x9F), ("HAECC2", 0xA0), ("RSVD_A1", 0xA1),
   ("SCALING_PCLK_DELAY", 0xA2), ("RSVD_A3", 0xA3), ("NT_CTRL", 0xA4), ("BD50MAX", 0xA5),
   ("HAECC3", 0xA6), ("HAECC4", 0xA7), ("HAECC5", 0xA8), ("HAECC6", 0xA9), ("HAECC7", 0xAA),
   ("BD60MAX", 0xAB), ("STR_OPT", 0xAC), ("STR_R", 0xAD), ("STR_G", 0xAE), ("STR_B", 0xAF),
   ("RSVD_B0", 0xB0), ("ABLC1", 0xB1), ("RSVD_B2", 0xB2), ("THL_ST", 0xB3), ("RSVD_B4", 0xB4),
   ("THL_DLT", 0xB5), ("RSVD_B6", 0xB6), ("RSVD_B7", 0xB7), ("RSVD_B8", 0xB8),
   ("RSVD_B9", 0xB9), ("RSVD_BA", 0xBA), ("RSVD_BB", 0xBB), ("RSVD_BC", 0xBC),
   ("RSVD_BD", 0xBD), ("AD_CHB", 0xBE), ("AD_CHR", 0xBF), ("AD_CHGB", 0xC0), ("AD_CHGR", 0xC1),
   ("RSVD_C2", 0xC2), ("RSVD_C3", 0xC3), ("RSVD_C4", 0xC4), ("RSVD_C5", 0xC5),
   ("RSVD_C6", 0xC6), ("RSVD_C7", 0xC7), ("RSVD_C8", 0xC8), ("SATCTR", 0xC9)]

/-- The register macros `#define OV7670_REG_<NAME>` of `src/src/ov7670.h` (lines 7-229), in
header order, repeated definitions included. -/
def OV7670_REG : List (String × Nat) :=
  [("GAIN", 0x00), ("BLUE", 0x01), ("RED", 0x02), ("VREF", 0x03), ("COM1", 0x04),
   ("BAVE", 0x05), ("GEAVE", 0x06), ("RAVE", 0x07), ("COM2", 0x09), ("PID", 0x0A),
   ("VER", 0x0B), ("COM3", 0x0C), ("COM4", 0x0D), ("COM5", 0x0E), ("COM6", 0x0F),
   ("AEC", 0x10), ("CLKRC", 0x11), ("COM7", 0x12), ("COM8", 0x13), ("COM9", 0x14),
   ("COM10", 0x15), ("HSTART", 0x17), ("HSTOP", 0x18), ("VSTART", 0x19), ("VSTOP", 0x1A),
   ("PSHFT", 0x1B), ("MIDH", 0x1C), ("MIDL", 0x1D), ("MVFP", 0x1E), ("LAEC", 0x1F),
   ("ADCCTR0", 0x20), ("ADCCTR1", 0x21), ("ADCCTR2", 0x22), ("ADCCTR3", 0x23), ("AEW", 0x24),
   ("AEB", 0x25), ("VPT", 0x26), ("BBIAS", 0x27), ("GbBIAS", 0x28), ("RSVD", 0x29),
   ("EXHCH", 0x2A), ("EXHCL", 0x2B), ("RBIAS", 0x2C), ("ADVFL", 0x2D), ("ADVFH", 0x2E),
   ("YAVE", 0x2F), ("HSYST", 0x30), ("HSYEN", 0x31), ("HREF", 0x32), ("CHLF", 0x33),
   ("ARBLM", 0x34), ("RESERVED_0", 0x35), ("ADC", 0x36), ("ACOM", 0x37), ("OFON", 0x38),
   ("TSLB", 0x3A), ("COM11", 0x3B), ("COM12", 0x3C), ("COM13", 0x3D), ("COM14", 0x3E),
   ("EDGE", 0x3F), ("COM15", 0x40), ("COM16", 0x41), ("COM17", 0x42), ("AWBC1", 0x43),
   ("AWBC2", 0x44), ("AWBC3", 0x45), ("AWBC4", 0x46), ("AWBC5", 0x47), ("AWBC6", 0x48),
   ("REG4B", 0x4B), ("DNSTH", 0x4C), ("POIDX", 0x4D), ("PCKDV", 0x4E), ("XINDX", 0x4F),
   ("YINDX", 0x50), ("SLOP", 0x51), ("DECI", 0x52), ("GLBAL", 0x53), ("DBLV", 0x54),
   ("AWBCTR3", 0x55), ("AWBCTR2", 0x56), ("AWBCTR1", 0x57), ("AWBCTR0", 0x58),
   ("SCALING_XSC", 0x70), ("SCALING_YSC", 0x71), ("SCALING_DCWCTR", 0x72),
   ("SCALING_PCLK_DIV", 0x73), ("REG74", 0x74), ("REG75", 0x75), ("REG76", 0x76),
   ("REG77", 0x77), ("SLOP", 0x7A), ("GAM1", 0x7B), ("GAM2", 0x7C), ("GAM3", 0x7D),
   ("GAM4", 0x7E), ("GAM5", 0x7F), ("GAM6", 0x80), ("GAM7", 0x81), ("GAM8", 0x82),
   ("GAM9", 0x83), ("GAM10", 0x84), ("GAM11", 0x85), ("GAM12", 0x86), ("GAM13", 0x87),
   ("GAM14", 0x88), ("GAM15", 0x89), ("REG8A", 0x8A), ("REG8B", 0x8B), ("REG8C", 0x8C),
   ("REG8D", 0x8D), ("REG8E", 0x8E), ("REG8F", 0x8F), ("REG90", 0x90), ("REG91", 0x91),
   ("REG92", 0x92), ("REG93", 0x93), ("REG94", 0x94), ("REG95", 0x95), ("REG96", 0x96),
   ("REG97", 0x97), ("REG98", 0x98), ("REG99", 0x99), ("REG9A", 0x9A), ("REG9B", 0x9B),
   ("REG9C", 0x9C), ("REG9D", 0x9D), ("REG9E", 0x9E), ("REG9F", 0x9F), ("DMLNL", 0xA0),
   ("DMLNH", 0xA1), ("LCC6", 0xA2), ("LCC7", 0xA3), ("AECH", 0xA4), ("BD50", 0xA5),
   ("BD60", 0xA6), ("HAECC1", 0xA7), ("HAECC2", 0xA8), ("HAECC3", 0xA9), ("HAECC4", 0xAA),
   ("HAECC5", 0xAB), ("HAECC6", 0xAC), ("HAECC7", 0xAD), ("BD50MAX", 0xAE), ("HAECC8", 0xAF),
   ("SCALING_DCWCTR2", 0xB0), ("SCALING_PLK_DIV2", 0xB1), ("REGB2", 0xB2), ("REGB3", 0xB3),
   ("REGB4", 0xB4), ("REGB5", 0xB5), ("REGB6", 0xB6), ("REGB7", 0xB7), ("REGB8", 0xB8),
   ("REGB9", 0xB9), ("REGBA", 0xBA), ("REGBB", 0xBB), ("REGBC", 0xBC), ("REGBD", 0xBD),
   ("REGBE", 0xBE), ("REGBF", 0xBF), ("AWBCTR7", 0xC0), ("AWBCTR8", 0xC1), ("AWBCTR9", 0xC2),
   ("AWBCTR10", 0xC3), ("AWBCTR11", 0xC4), ("AWBCTR12", 0xC5), ("AWBCTR13", 0xC6),
   ("AWBCTR14", 0xC7), ("AWBCTR15", 0xC8), ("AWBCTR16", 0xC9), ("AWBCTR17", 0xCA),
   ("AWBCTR18", 0xCB), ("AWBCTR19", 0xCC), ("AWBCTR20", 0xCD), ("AWBCTR21", 0xCE),
   ("GAMCTRP", 0xD0), ("GAMCTRN", 0xD1), ("REGD2", 0xD2), ("REGD3", 0xD3), ("REGD4", 0xD4),
   ("REGD5", 0xD5), ("REGD6", 0xD6), ("REGD7", 0xD7), ("REGD8", 0xD8), ("REGD9", 0xD9),
   ("REGDA", 0xDA), ("REGDB", 0xDB), ("REGDC", 0xDC), ("REGDD", 0xDD), ("REGDE", 0xDE),
   ("REGDF", 0xDF), ("REGE0", 0xE0), ("REGE1", 0xE1), ("REGE2", 0xE2), ("REGE3", 0xE3),
   ("REGE4", 0xE4), ("REGE5", 0xE5), ("REGE6", 0xE6), ("REGE7", 0xE7), ("REGE8", 0xE8),
   ("REGE9", 0xE9), ("REGEA", 0xEA), ("REGEB", 0xEB), ("REGEC", 0xEC), ("REGED", 0xED),
   ("REGEF", 0xEF), ("REGF0", 0xF0), ("REGF1", 0xF1), ("REGF2", 0xF2), ("REGF3", 0xF3),
   ("REGF4", 0xF4), ("REGF5", 0xF5), ("REGF6", 0xF6), ("REGF7", 0xF7), ("REGF8", 0xF8),
   ("REGF9", 0xF9), ("REGFB", 0xFB), ("REGFC", 0xFC), ("REGFD", 0xFD), ("REGFE", 0xFE),
   ("REGFF", 0xFF)]

/-- Both headers name register `n`, and the address `src/src/ov7670.h` gives it (in the first
definition of `OV7670_REG_<n>`) differs from the address `src/ov7670.h` gives it. -/
def addresses_differ (n : String) : Bool :=
  match OV7670_REG.lookup n, OV7670_ADDRESS.lookup n with
  | some a, some b => a != b
  | _, _ => false

/-! ## The capture loop of `src/src/main.c`

`main` (lines 56-70), `camera_init` (lines 72-82) and `camera_start_capture` (lines 38-45)
are observed through the calls they make.  Several macros they use are defined in no header
of the repository; they are collected in `MissingMacros` and taken as parameters. -/

/-- The value `CAMERA_BUFFER_SIZE` (`src/src/main.c`, line 16). -/
def CAMERA_BUFFER_SIZE : Nat := 1024

/-- The value `OV7670_COM7_FMT_RGB565` (`src/src/ov7670.h`, line 266). -/
def OV7670_COM7_FMT_RGB565 : Nat := 0x00

/-- The value `OV7670_COM7_RES_QVGA` (`src/src/ov7670.h`, lines 261 and 280). -/
def OV7670_COM7_RES_QVGA : Nat := 0x05

/-- The value `OV7670_COM2_SSLEEP` (`src/src/ov7670.h`, line 246). -/
def OV7670_COM2_SSLEEP : Nat := 0x10

/-- The macros `src/src/main.c` uses without any header of the repository defining them. -/
structure MissingMacros where
  OV7670_COM7 : Nat
  OV7670_COM2 : Nat
  OV7670_COM3 : Nat
  OV7670_COM14 : Nat
  OV7670_COM7_QVGA : Nat
  OV7670_COM7_RGB : Nat
  OV7670_COM3_DCWEN : Nat
  OV7670_COM14_DCWEN : Nat
  OV7670_COM14_MANU : Nat
  OV7670_I2C_ADDR : Nat

/-- A call made by `main` or by the routines it calls. -/
inductive Action where
  | ov7670_write_reg (reg : Nat) (value : Nat)
  | HAL_I2C_Master_Receive (DevAddress : Nat) (Size : Nat) (Timeout : Nat)
      (status : HAL_StatusTypeDef)
  | detect_street_lines (image : Image) (width : Int) (height : Int)
deriving DecidableEq

/-- The function `camera_start_capture` (lines 38-45): two register writes. -/
def camera_start_capture (k : MissingMacros) : List Action :=
  [Action.ov7670_write_reg k.OV7670_COM7 (OV7670_COM7_FMT_RGB565 ||| OV7670_COM7_RES_QVGA),
   Action.ov7670_write_reg k.OV7670_COM2 OV7670_COM2_SSLEEP]

/-- The function `camera_init` (lines 72-82): three register writes. -/
def camera_init (k : MissingMacros) : List Action :=
  [Action.ov7670_write_reg k.OV7670_COM7 (k.OV7670_COM7_QVGA ||| k.OV7670_COM7_RGB),
   Action.ov7670_write_reg k.OV7670_COM3 k.OV7670_COM3_DCWEN,
   Action.ov7670_write_reg k.OV7670_COM14 (k.OV7670_COM14_DCWEN ||| k.OV7670_COM14_MANU)]

/-- One pass through the body of `while (1)` (lines 64-68) in which the receive of line 67
returns `status`.  The `if` that tests the status has no statement under it, so the pass
consists of the receive alone. -/
def main_loop_pass (k : MissingMacros) (status : HAL_StatusTypeDef) : List Action :=
  [Action.HAL_I2C_Master_Receive k.OV7670_I2C_ADDR CAMERA_BUFFER_SIZE 100 status]

/-- The function `main` (lines 56-70), observed up to the end of as many passes through its
endless loop as statuses are supplied for the receive. -/
def main (k : MissingMacros) (statuses : List HAL_StatusTypeDef) : List Action :=
  camera_init k ++ camera_start_capture k ++ (statuses.map (main_loop_pass k)).flatten

/-- Some values for the missing macros. -/
def sample_macros : MissingMacros := ⟨0x12, 0x09, 0x0C, 0x3E, 0x10, 0x04, 0x04, 0x10, 0x08, 0x42⟩

/-! ## The bring-up of `src/Street Line Detection/Core/Src/main.c`

`main` (lines 73-182) and the routines it calls are observed through the HAL routines and
macros they invoke, each identified by its name and the source line of the call.  The HAL is
vendor code: the status each call returns and the readiness of the power flag polled at line
202 are parameters (`Hardware`).  Interrupts are not modelled. -/

namespace H7

/-- The HAL routines and macros invoked by `main`, `SystemClock_Config`, `MX_GPIO_Init`,
`MX_DCMI_Init`, `MX_DMA_Init` and `Error_Handler`. -/
inductive Routine where
  | __HAL_RCC_DCMI_CLK_ENABLE
  | __HAL_RCC_DMA2_CLK_ENABLE
  | HAL_DMA_Init
  | __HAL_LINKDMA
  | HAL_DCMI_Init
  | HAL_GPIO_Init
  | HAL_NVIC_SetPriority
  | HAL_NVIC_EnableIRQ
  | HAL_DMA_Start_IT
  | HAL_DCMI_Start_DMA
  | HAL_Init
  | HAL_PWREx_ConfigSupply
  | __HAL_PWR_VOLTAGESCALING_CONFIG
  | __HAL_PWR_GET_FLAG
  | HAL_RCC_OscConfig
  | HAL_RCC_ClockConfig
  | __HAL_RCC_GPIOE_CLK_ENABLE
  | __HAL_RCC_GPIOA_CLK_ENABLE
  | __HAL_RCC_GPIOC_CLK_ENABLE
  | __HAL_RCC_GPIOD_CLK_ENABLE
  | __HAL_RCC_DMA1_CLK_ENABLE
  | Error_Handler
  | __disable_irq
deriving DecidableEq

/-- One observed call: the routine, the source line of the call, and the status it returned
(`none` for a routine or macro without a status). -/
structure Event where
  routine : Routine
  line : Nat
  status : Option HAL_StatusTypeDef
deriving DecidableEq

/-- What the hardware answers during one run: the status returned by the HAL call at each
source line, and how many polls of the power flag at line 202 read "not ready" before one
reads "ready" (`none`: it never does). -/
structure Hardware where
  status : Nat → HAL_StatusTypeDef
  vosrdy_after : Option Nat

/-- Where control is: still running straight-line code, inside the endless loop of
`Error_Handler` (line 319), inside the wait loop of line 202 for good, or inside the endless
loop of `main` (line 175). -/
inductive Phase where
  | running
  | halted
  | waiting
  | looping
deriving DecidableEq

/-- The calls observed so far (oldest first) and where control is. -/
structure Run where
  trace : List Event
  phase : Phase

/-- A call of a routine or macro that returns no status. -/
def call (r : Routine) (line : Nat) (s : Run) : Run :=
  if s.phase = Phase.running then { s with trace := s.trace ++ [⟨r, line, none⟩] } else s

/-- A call of a HAL routine whose status is dropped by the caller. -/
def call_unchecked (hw : Hardware) (r : Routine) (line : Nat) (s : Run) : Run :=
  if s.phase = Phase.running then
    { s with trace := s.trace ++ [⟨r, line, some (hw.status line)⟩] }
  else s

/-- The function `Error_Handler` (lines 314-323), called from source line `line`:
`__disable_irq()` and then `while (1) {}`. -/
def Error_Handler (line : Nat) (s : Run) : Run :=
  if s.phase = Phase.running then
    { trace := s.trace
        ++ [⟨Routine.Error_Handler, line, none⟩, ⟨Routine.__disable_irq, 318, none⟩]
      phase := Phase.halted }
  else s

/-- The pattern `if (f(...) != HAL_OK) { Error_Handler(); }` with the call of `f` at source
line `line` and the call of `Error_Handler` at line `handler`. -/
def call_checked (hw : Hardware) (r : Routine) (line handler : Nat) (s : Run) : Run :=
  if hw.status line ≠ HAL_StatusTypeDef.HAL_OK then
    Error_Handler handler (call_unchecked hw r line s)
  else call_unchecked hw r line s

/-- Line 202: `while(!__HAL_PWR_GET_FLAG(PWR_FLAG_VOSRDY)) {}`. -/
def wait_vosrdy (hw : Hardware) (s : Run) : Run :=
  if s.phase = Phase.running then
    match hw.vosrdy_after with
    | some n =>
      { s with trace := s.trace
          ++ List.replicate (n + 1) ⟨Routine.__HAL_PWR_GET_FLAG, 202, none⟩ }
    | none => { s with phase := Phase.waiting }
  else s

/-- The function `SystemClock_Config` (lines 189-233). -/
def SystemClock_Config (hw : Hardware) (s : Run) : Run :=
  s |> call_unchecked hw Routine.HAL_PWREx_ConfigSupply 196
    |> call Routine.__HAL_PWR_VOLTAGESCALING_CONFIG 200
    |> wait_vosrdy hw
    |> call_checked hw Routine.HAL_RCC_OscConfig 211 213
    |> call_checked hw Routine.HAL_RCC_ClockConfig 229 231

/-- The function `MX_DCMI_Init` (lines 240-272). -/
def MX_DCMI_Init (hw : Hardware) (s : Run) : Run :=
  s |> call_checked hw Routine.HAL_DCMI_Init 264 266

/-- The function `MX_DMA_Init` (lines 277-288). -/
def MX_DMA_Init (s : Run) : Run :=
  s |> call Routine.__HAL_RCC_DMA1_CLK_ENABLE 281
    |> call Routine.HAL_NVIC_SetPriority 285
    |> call Routine.HAL_NVIC_EnableIRQ 286

/-- The function `MX_GPIO_Init` (lines 295-304). -/
def MX_GPIO_Init (s : Run) : Run :=
  s |> call Routine.__HAL_RCC_GPIOE_CLK_ENABLE 299
    |> call Routine.__HAL_RCC_GPIOA_CLK_ENABLE 300
    |> call Routine.__HAL_RCC_GPIOC_CLK_ENABLE 301
    |> call Routine.__HAL_RCC_GPIOD_CLK_ENABLE 302

/-- Entering `while (1) { }` at line 175. -/
def main_loop (s : Run) : Run :=
  if s.phase = Phase.running then { s with phase := Phase.looping } else s

/-- The function `main` (lines 73-182).  The nested definition of `DMA2_Stream1_IRQHandler`
(lines 95-98) is not called by `main` itself. -/
def main (hw : Hardware) : Run :=
  (⟨[], Phase.running⟩ : Run)
    |> call Routine.__HAL_RCC_DCMI_CLK_ENABLE 77
    |> call Routine.__HAL_RCC_DMA2_CLK_ENABLE 78
    |> call_unchecked hw Routine.HAL_DMA_Init 92
    |> call Routine.__HAL_LINKDMA 93
    |> call_unchecked hw Routine.HAL_DCMI_Init 113
    |> call Routine.HAL_GPIO_Init 121
    |> call Routine.HAL_GPIO_Init 125
    |> call Routine.HAL_GPIO_Init 129
    |> call Routine.HAL_GPIO_Init 133
    |> call Routine.HAL_GPIO_Init 135
    |> call Routine.HAL_GPIO_Init 137
    |> call Routine.HAL_NVIC_SetPriority 140
    |> call Routine.HAL_NVIC_EnableIRQ 141
    |> call_unchecked hw Routine.HAL_DMA_Start_IT 144
    |> call_unchecked hw Routine.HAL_DCMI_Start_DMA 147
    |> call_unchecked hw Routine.HAL_Init 153
    |> SystemClock_Config hw
    |> MX_GPIO_Init
    |> MX_DCMI_Init hw
    |> MX_DMA_Init
    |> main_loop

/-- Hardware on which the HAL call at source line `l` returns `HAL_ERROR`, every other call
returns `HAL_OK`, and the power flag is ready at the first poll. -/
def fails_at (l : Nat) : Hardware :=
  ⟨fun n => if n = l then HAL_StatusTypeDef.HAL_ERROR else HAL_StatusTypeDef.HAL_OK, some 0⟩

/-- `Error_Handler` was called during the run. -/
def error_reported (s : Run) : Bool :=
  s.trace.any fun e => decide (e.routine = Routine.Error_Handler)

end H7

/-! ## The COM7 encodings of `src/src/ov7670.h` (lines 256-281) -/

/-- The value `OV7670_COM7_FMT_MASK` (line 265). -/
def OV7670_COM7_FMT_MASK : Nat := 0x38

/-- The value `OV7670_COM7_FMT_RGB555` (line 267). -/
def OV7670_COM7_FMT_RGB555 : Nat := 0x08

/-- The value `OV7670_COM7_FMT_RGB444` (line 268). -/
def OV7670_COM7_FMT_RGB444 : Nat := 0x10

/-- The value `OV7670_COM7_FMT_RGB888` (line 269). -/
def OV7670_COM7_FMT_RGB888 : Nat := 0x18

/-- The value `OV7670_COM7_FMT_YUV` (line 270). -/
def OV7670_COM7_FMT_YUV : Nat := 0x20

/-- The value `OV7670_COM7_FMT_BAYER` (line 271). -/
def OV7670_COM7_FMT_BAYER : Nat := 0x28

/-- The value `OV7670_COM7_FMT_JPEG` (line 272). -/
def OV7670_COM7_FMT_JPEG : Nat := 0x30

/-- The value `OV7670_COM7_RES_MASK` (line 274). -/
def OV7670_COM7_RES_MASK : Nat := 0x07

/-- The value `OV7670_COM7_RES_UXGA` (lines 256 and 275). -/
def OV7670_COM7_RES_UXGA : Nat := 0x00

/-- The value `OV7670_COM7_RES_SXGA` (lines 257 and 276). -/
def OV7670_COM7_RES_SXGA : Nat := 0x01

/-- The value `OV7670_COM7_RES_XGA` (lines 258 and 277). -/
def OV7670_COM7_RES_XGA : Nat := 0x02

/-- The value `OV7670_COM7_RES_SVGA` (lines 259 and 278). -/
def OV7670_COM7_RES_SVGA : Nat := 0x03

/-- The value `OV7670_COM7_RES_VGA` (lines 260 and 279). -/
def OV7670_COM7_RES_VGA : Nat := 0x04

/-- The value `OV7670_COM7_RES_QQVGA` (lines 262 and 281). -/
def OV7670_COM7_RES_QQVGA : Nat := 0x06

/-- The seven format values `OV7670_COM7_FMT_*`, in header order. -/
def OV7670_COM7_FMT : List Nat :=
  [OV7670_COM7_FMT_RGB565, OV7670_COM7_FMT_RGB555, OV7670_COM7_FMT_RGB444,
   OV7670_COM7_FMT_RGB888, OV7670_COM7_FMT_YUV, OV7670_COM7_FMT_BAYER, OV7670_COM7_FMT_JPEG]

/-- The seven resolution values `OV7670_COM7_RES_*`, in header order. -/
def OV7670_COM7_RES : List Nat :=
  [OV7670_COM7_RES_UXGA, OV7670_COM7_RES_SXGA, OV7670_COM7_RES_XGA, OV7670_COM7_RES_SVGA,
   OV7670_COM7_RES_VGA, OV7670_COM7_RES_QVGA, OV7670_COM7_RES_QQVGA]

namespace H7

/-- Hardware on which every HAL call returns `HAL_OK` and the power flag is ready at the
first poll. -/
def all_ok : Hardware := ⟨fun _ => HAL_StatusTypeDef.HAL_OK, some 0⟩

/-- The run before anything was called. -/
def fresh : Run := ⟨[], Phase.running⟩

/-- Place in the trace (counted from 0) of the call of routine `r` made at source line
`line`; the length of the trace when there is no such call. -/
def position (r : Routine) (line : Nat) (s : Run) : Nat :=
  (s.trace.map fun e => (e.routine, e.line)).indexOf (r, line)

/-- One of the calls of routine `r` in the trace returned a status other than `HAL_OK`. -/
def call_failed (r : Routine) (s : Run) : Prop :=
  ∃ e ∈ s.trace, e.routine = r ∧ ∃ st, e.status = some st ∧ st ≠ HAL_StatusTypeDef.HAL_OK

/-! ### `stm32h7xx_hal_msp.c`

`HAL_DCMI_MspInit` (lines 85-166) and `HAL_DCMI_MspDeInit` (lines 174-210), observed through
the calls they make.  Of the `GPIO_InitStruct` handed to `HAL_GPIO_Init` only the port and
the `Pin` mask are kept. -/

/-- The `Instance` of a DCMI handle: the DCMI peripheral, or some other address. -/
inductive Instance where
  | DCMI
  | other (base : Nat)
deriving DecidableEq

/-- The GPIO ports the two functions touch. -/
inductive Port where
  | GPIOA
  | GPIOC
  | GPIOD
  | GPIOE
deriving DecidableEq

/-- Modelled from the spec: the vendor macro `GPIO_PIN_n`, the mask with bit `n` set (the
macro is declared in the vendor HAL and absent from the sources; the pin table in the
comments of lines 100-110 names the pins by that number). -/
def GPIO_PIN (n : Nat) : Nat := 2 ^ n

/-- A call made by `HAL_DCMI_MspInit` or `HAL_DCMI_MspDeInit`. -/
inductive MspCall where
  | __HAL_RCC_DCMI_CLK_ENABLE
  | __HAL_RCC_GPIOE_CLK_ENABLE
  | __HAL_RCC_GPIOA_CLK_ENABLE
  | __HAL_RCC_GPIOC_CLK_ENABLE
  | __HAL_RCC_GPIOD_CLK_ENABLE
  | HAL_GPIO_Init (port : Port) (Pin : Nat)
  | HAL_DMA_Init (status : HAL_StatusTypeDef)
  | Error_Handler
  | __HAL_LINKDMA
  | __HAL_RCC_DCMI_CLK_DISABLE
  | HAL_GPIO_DeInit (port : Port) (Pin : Nat)
  | HAL_DMA_DeInit
deriving DecidableEq

/-- The function `HAL_DCMI_MspInit` (lines 85-166) for a handle with the given `Instance`,
when `HAL_DMA_Init` (line 154) returns `dma`.  `Error_Handler` does not return, so
`__HAL_LINKDMA` is reached only after a successful `HAL_DMA_Init`. -/
def HAL_DCMI_MspInit (inst : Instance) (dma : HAL_StatusTypeDef) : List MspCall :=
  if inst = Instance.DCMI then
    [MspCall.__HAL_RCC_DCMI_CLK_ENABLE,
     MspCall.__HAL_RCC_GPIOE_CLK_ENABLE,
     MspCall.__HAL_RCC_GPIOA_CLK_ENABLE,
     MspCall.__HAL_RCC_GPIOC_CLK_ENABLE,
     MspCall.__HAL_RCC_GPIOD_CLK_ENABLE,
     MspCall.HAL_GPIO_Init Port.GPIOE (GPIO_PIN 4 ||| GPIO_PIN 5 ||| GPIO_PIN 6),
     MspCall.HAL_GPIO_Init Port.GPIOA (GPIO_PIN 6),
     MspCall.HAL_GPIO_Init Port.GPIOC (GPIO_PIN 6 ||| GPIO_PIN 7 ||| GPIO_PIN 8 ||| GPIO_PIN 9),
     MspCall.HAL_GPIO_Init Port.GPIOD (GPIO_PIN 3),
     MspCall.HAL_DMA_Init dma]
      ++ (if dma ≠ HAL_StatusTypeDef.HAL_OK then [MspCall.Error_Handler]
          else [MspCall.__HAL_LINKDMA])
  else []

/-- The function `HAL_DCMI_MspDeInit` (lines 174-210) for a handle with the given
`Instance`. -/
def HAL_DCMI_MspDeInit (inst : Instance) : List MspCall :=
  if inst = Instance.DCMI then
    [MspCall.__HAL_RCC_DCMI_CLK_DISABLE,
     MspCall.HAL_GPIO_DeInit Port.GPIOE (GPIO_PIN 4 ||| GPIO_PIN 5 ||| GPIO_PIN 6),
     MspCall.HAL_GPIO_DeInit Port.GPIOA (GPIO_PIN 6),
     MspCall.HAL_GPIO_DeInit Port.GPIOC
       (GPIO_PIN 6 ||| GPIO_PIN 7 ||| GPIO_PIN 8 ||| GPIO_PIN 9),
     MspCall.HAL_GPIO_DeInit Port.GPIOD (GPIO_PIN 3),
     MspCall.HAL_DMA_DeInit]
  else []

/-- The pins of `port` selected by a `Pin` mask, lowest first. -/
def pins_of (port : Port) (mask : Nat) : List (Port × Nat) :=
  ((List.range 16).filter fun n => mask.testBit n).map fun n => (port, n)

/-- The pins configured by the `HAL_GPIO_Init` calls of a call sequence, in call order. -/
def configured_pins : List MspCall → List (Port × Nat)
  | [] => []
  | MspCall.HAL_GPIO_Init port mask :: cs => pins_of port mask ++ configured_pins cs
  | _ :: cs => configured_pins cs

/-- The pins released by the `HAL_GPIO_DeInit` calls of a call sequence, in call order. -/
def released_pins : List MspCall → List (Port × Nat)
  | [] => []
  | MspCall.HAL_GPIO_DeInit port mask :: cs => pins_of port mask ++ released_pins cs
  | _ :: cs => released_pins cs

/-- The pin table in the comments of lines 100-110 and 184-194: PE4, PE5, PE6, PA6, PC6,
PC7, PC8, PC9, PD3. -/
def DCMI_pins : List (Port × Nat) :=
  [(Port.GPIOE, 4), (Port.GPIOE, 5), (Port.GPIOE, 6), (Port.GPIOA, 6), (Port.GPIOC, 6),
   (Port.GPIOC, 7), (Port.GPIOC, 8), (Port.GPIOC, 9), (Port.GPIOD, 3)]

end H7

set_option maxRecDepth 100000

/-! ## What the doc comments of `src/ov7670.h` state

Every constant of `src/ov7670.h` follows a doc comment.  The two tables below transcribe, in
header order, what those comments state next to what the constants are. -/

/-- For each register-address constant `OV7670_<NAME>_ADDRESS`, in the order of
`OV7670_ADDRESS`: the address or address range `lo-hi` given by the `@return` line of the
doc comment above it (`lo = hi` for a single address), `none` when that comment has no
`@return` line.  Constants declared in a row share the comment above the first of them. -/
def OV7670_ADDRESS_RETURN : List (String × Option (Nat × Nat)) :=
  [("COM1", some (0x04, 0x04)), ("COM2", some (0x09, 0x09)), ("COM3", some (0x0C, 0x0C)),
   ("COM4", some (0x0D, 0x0D)), ("COM5", some (0x0E, 0x0E)), ("COM6", some (0x0F, 0x0F)),
   ("COM7", some (0x12, 0x12)), ("COM8", some (0x13, 0x13)), ("COM9", some (0x14, 0x14)),
   ("COM10", some (0x15, 0x15)), ("COM11", some (0x3B, 0x3B)), ("COM12", some (0x3C, 0x3C)),
   ("COM13", some (0x3D, 0x3D)), ("COM14", some (0x3E, 0x3E)), ("COM15", some (0x40, 0x40)),
   ("COM16", some (0x41, 0x41)), ("COM17", some (0x42, 0x42)), ("GAIN", some (0x00, 0x00)),
   ("BLUE_GAIN", some (0x01, 0x01)), ("RED_GAIN", some (0x02, 0x02)),
   ("VREF", some (0x03, 0x03)), ("BAVE", some (0x05, 0x05)), ("GBAVE", some (0x06, 0x06)),
   ("AECHH", some (0x07, 0x07)), ("RAVE", some (0x08, 0x08)), ("PID", some (0x0A, 0x0A)),
   ("VER", some (0x0A, 0x0A)), ("AECH", some (0x10, 0x10)), ("CLKRC", some (0x11, 0x11)),
   ("RSVD_16", some (0x16, 0x16)), ("HSTART", some (0x17, 0x17)), ("HSTOP", some (0x18, 0x18)),
   ("VSTART", some (0x19, 0x19)), ("VSTOP", some (0x1A, 0x1A)), ("PSHIFT", some (0x1B, 0x1B)),
   ("MIDH", some (0x1C, 0x1C)), ("MIDL", some (0x1D, 0x1D)), ("MVFP", some (0x1E, 0x1E)),
   ("LAEC", some (0x1F, 0x1F)), ("ADCCTR0", some (0x20, 0x20)), ("ADCCTR1", some (0x21, 0x21)),
   ("ADCCTR2", some (0x22, 0x22)), ("ADCCTR3", some (0x23, 0x23)), ("AEW", some (0x24, 0x24)),
   ("AEB", some (0x25, 0x25)), ("VPT", some (0x26, 0x26)), ("BBIAS", some (0x27, 0x27)),
   ("GBBIAS", some (0x28, 0x28)), ("RSVD_29", some (0x29, 0x29)), ("EXHCH", some (0x2A, 0x2A)),
   ("EXHCL", some (0x2B, 0x2B)), ("RBIAS", none), ("ADVFL", some (0x2D, 0x2D)),
   ("ADVFH", some (0x2E, 0x2E)), ("YAVE", some (0x2F, 0x2F)), ("HSYST", some (0x30, 0x30)),
   ("HSYSN", some (0x31, 0x31)), ("HREF", some (0x32, 0x32)), ("CHLF", some (0x33, 0x33)),
   ("ARBLM", some (0x34, 0x34)), ("RSVD_35", some (0x35, 0x36)), ("RSVD_36", some (0x35, 0x36)),
   ("ADC", some (0x37, 0x37)), ("ACOM", some (0x38, 0x38)), ("OFON", some (0x39, 0x39)),
   ("TSLB", some (0x3A, 0x3A)), ("EDGE", some (0x3F, 0x3F)), ("AWBC1", some (0x43, 0x43)),
   ("AWBC2", some (0x44, 0x44)), ("AWBC3", some (0x45, 0x45)), ("AWBC4", some (0x46, 0x46)),
   ("AWBC5", some (0x47, 0x47)), ("AWBC6", some (0x48, 0x48)), ("RSVD_49", some (0x49, 0x4A)),
   ("RSVD_4A", some (0x49, 0x4A)), ("REG4B", some (0x4B, 0x4B)), ("DNSTH", some (0x4C, 0x4C)),
   ("RSVD_4D", some (0x4D, 0x4D)), ("RSVD_4E", some (0x4D, 0x4D)), ("MTX1", some (0x4F, 0x4F)),
   ("MTX2", some (0x50, 0x50)), ("MTX3", some (0x51, 0x51)), ("MTX4", some (0x52, 0x52)),
   ("MTX5", some (0x53, 0x53)), ("MTX6", some (0x54, 0x54)), ("BRIGHT", some (0x55, 0x55)),
   ("CONTRAS", some (0x56, 0x56)), ("CONTRAS_CENTER", some (0x57, 0x57)),
   ("MTXS", some (0x58, 0x58)), ("RSVD_59", some (0x59, 0x61)), ("RSVD_5A", some (0x59, 0x61)),
   ("RSVD_5B", some (0x59, 0x61)), ("RSVD_5C", some (0x59, 0x61)),
   ("RSVD_5D", some (0x59, 0x61)), ("RSVD_5E", some (0x59, 0x61)),
   ("RSVD_5F", some (0x59, 0x61)), ("RSVD_60", some (0x59, 0x61)),
   ("RSVD_61", some (0x59, 0x61)), ("LCC1", some (0x62, 0x62)), ("LCC2", some (0x63, 0x63)),
   ("LCC3", some (0x64, 0x64)), ("LCC4", some (0x65, 0x65)), ("LCC5", some (0x66, 0x66)),
   ("MANU", some (0x67, 0x67)), ("MANV", some (0x68, 0x68)), ("GFIX", some (0x69, 0x69)),
   ("GGAIN", some (0x6A, 0x6A)), ("DBLV", some (0x6B, 0x6B)), ("AWBCTR3", none),
   ("AWBCTR2", none), ("AWBCTR1", none), ("AWBCTR0", none), ("SCALING_XSC", some (0x70, 0x70)),
   ("SCALING_YSC", some (0x71, 0x71)), ("SCALING_DCWCTR", some (0x72, 0x72)),
   ("SCALING_PCLK_DIV", some (0x73, 0x73)), ("REG74", some (0x74, 0x74)),
   ("REG75", some (0x75, 0x75)), ("REG76", some (0x76, 0x76)), ("REG77", some (0x77, 0x77)),
   ("RSVD_78", some (0x78, 0x79)), ("RSVD_79", some (0x78, 0x79)), ("SLOP", some (0x7A, 0x7A)),
   ("GAM1", some (0x7B, 0x7B)), ("GAM2", some (0x7C, 0x7C)), ("GAM3", some (0x7D, 0x7D)),
   ("GAM4", some (0x7E, 0x7E)), ("GAM5", some (0x7F, 0x7F)), ("GAM6", some (0x80, 0x80)),
   ("GAM7", some (0x81, 0x81)), ("GAM8", some (0x82, 0x82)), ("GAM9", some (0x83, 0x83)),
   ("GAM10", some (0x84, 0x84)), ("GAM11", some (0x85, 0x85)), ("GAM12", some (0x86, 0x86)),
   ("GAM13", some (0x87, 0x87)), ("GAM14", some (0x88, 0x88)), ("GAM15", some (0x89, 0x89)),
   ("RSVD_8A", some (0x8A, 0x8B)), ("RSVD_8B", some (0x8A, 0x8B)),
   ("RGB444", some (0x8C, 0x8C)), ("RSVD_8D", some (0x8D, 0x91)),
   ("RSVD_8E", some (0x8D, 0x91)), ("RSVD_8F", some (0x8D, 0x91)),
   ("RSVD_90", some (0x8D, 0x91)), ("RSVD_91", some (0x8D, 0x91)),
   ("DM_LNL", some (0x92, 0x92)), ("DM_LNH", some (0x93, 0x93)), ("LCC6", some (0x94, 0x94)),
   ("LCC7", some (0x95, 0x95)), ("RSVD_96", some (0x96, 0x9C)), ("RSVD_97", some (0x96, 0x9C)),
   ("RSVD_98", some (0x96, 0x9C)), ("RSVD_99", some (0x96, 0x9C)),
   ("RSVD_9A", some (0x96, 0x9C)), ("RSVD_9B", some (0x96, 0x9C)),
   ("RSVD_9C", some (0x96, 0x9C)), ("BD50ST", some (0x9D, 0x9D)), ("BD60ST", some (0x9E, 0x9E)),
   ("HAECC1", some (0x9F, 0x9F)), ("HAECC2", some (0xA0, 0xA0)), ("RSVD_A1", some (0xA1, 0xA1)),
   ("SCALING_PCLK_DELAY", some (0xA2, 0xA2)), ("RSVD_A3", some (0xA3, 0xA3)),
   ("NT_CTRL", some (0xA4, 0xA4)), ("BD50MAX", some (0xA5, 0xA5)),
   ("HAECC3", some (0xA6, 0xA6)), ("HAECC4", some (0xA7, 0xA7)), ("HAECC5", some (0xA8, 0xA8)),
   ("HAECC6", some (0xA9, 0xA9)), ("HAECC7", some (0xAA, 0xAA)), ("BD60MAX", some (0xAB, 0xAB)),
   ("STR_OPT", some (0xAC, 0xAC)), ("STR_R", some (0xAD, 0xAD)), ("STR_G", some (0xAE, 0xAE)),
   ("STR_B", some (0xAF, 0xAF)), ("RSVD_B0", some (0xB0, 0xB0)), ("ABLC1", some (0xB1, 0xB1)),
   ("RSVD_B2", some (0xB2, 0xB2)), ("THL_ST", some (0xB3, 0xB3)),
   ("RSVD_B4", some (0xB4, 0xB4)), ("THL_DLT", some (0xB5, 0xB5)),
   ("RSVD_B6", some (0xB6, 0xBD)), ("RSVD_B7", some (0xB6, 0xBD)),
   ("RSVD_B8", some (0xB6, 0xBD)), ("RSVD_B9", some (0xB6, 0xBD)),
   ("RSVD_BA", some (0xB6, 0xBD)), ("RSVD_BB", some (0xB6, 0xBD)),
   ("RSVD_BC", some (0xB6, 0xBD)), ("RSVD_BD", some (0xB6, 0xBD)),
   ("AD_CHB", some (0xBE, 0xBE)), ("AD_CHR", some (0xBF, 0xBF)), ("AD_CHGB", some (0xC0, 0xC0)),
   ("AD_CHGR", some (0xC1, 0xC1)), ("RSVD_C2", some (0xC2, 0xC8)),
   ("RSVD_C3", some (0xC2, 0xC8)), ("RSVD_C4", some (0xC2, 0xC8)),
   ("RSVD_C5", some (0xC2, 0xC8)), ("RSVD_C6", some (0xC2, 0xC8)),
   ("RSVD_C7", some (0xC2, 0xC8)), ("RSVD_C8", some (0xC2, 0xC8)), ("SATCTR", some (0xC9, 0xC9))]

/-- For each init-value constant `OV7670_..._RESET_VALUE...` (lines 1650-2657), in header
order: its name without the `OV7670_` in front, its value, the value given by the `@return`
line of its doc comment, and the digits of the bit pattern given in that comment, left to
right. -/
def OV7670_RESET_VALUE : List (String × Nat × Nat × List Nat) :=
  [("CLKRC_RESET_VALUE", 0x01, 0x01, [0, 0, 0, 0, 0, 0, 0, 1]),
   ("TSLB_RESET_VALUE", 0x04, 0x04, [0, 0, 0, 0, 0, 1, 0, 0]),
   ("COM7_RESET_VALUE", 0x00, 0x00, [0, 0, 0, 0, 0, 0, 0, 0]),
   ("HSTART_RESET_VALUE", 0x13, 0x13, [0, 0, 0, 1, 0, 0, 1, 1]),
   ("HSTOP_RESET_VALUE", 0x01, 0x01, [0, 0, 0, 0, 0, 0, 0, 1]),
   ("HREF_RESET_VALUE", 0xB6, 0xB6, [1, 0, 1, 1, 0, 1, 1, 0]),
   ("VSTART_RESET_VALUE", 0x02, 0x02, [0, 0, 0, 1, 0, 0, 1, 0]),
   ("VSTOP_RESET_VALUE", 0x7A, 0x7A, [0, 1, 1, 1, 1, 0, 1, 0]),
   ("VREF_RESET_VALUE", 0x0A, 0x0A, [0, 0, 0, 0, 1, 0, 1, 0]),
   ("COM14_RESET_VALUE", 0x00, 0x00, [0, 0, 0, 0, 0, 0, 0, 0]),
   ("SCALING_XSC_RESET_VALUE", 0x3A, 0x3A, [0, 0, 1, 1, 1, 0, 1, 0]),
   ("SCALING_PCLK_DIV_RESET_VALUE", 0xF0, 0xF0, [1, 1, 1, 1, 0, 0, 0, 0]),
   ("SLOP_RESET_VALUE", 0x20, 0x20, [0, 0, 1, 0, 0, 0, 0, 0]),
   ("GAM1_RESET_VALUE", 0x10, 0x10, [0, 0, 0, 1, 0, 0, 0, 0]),
   ("GAM2_RESET_VALUE", 0x1E, 0x1E, [0, 0, 0, 1, 1, 1, 1, 0]),
   ("GAM3_RESET_VALUE", 0x35, 0x35, [0, 0, 1, 1, 0, 1, 0, 1]),
   ("GAM4_RESET_VALUE", 0x5A, 0x5A, [0, 1, 0, 1, 1, 0, 1, 0]),
   ("GAM5_RESET_VALUE", 0x69, 0x69, [0, 1, 1, 0, 1, 0, 0, 1]),
   ("GAM6_RESET_VALUE", 0x76, 0x76, [0, 1, 1, 1, 0, 1, 1, 0]),
   ("GAM7_RESET_VALUE", 0x80, 0x80, [1, 0, 0, 0, 0, 0, 0, 0]),
   ("GAM8_RESET_VALUE", 0x88, 0x88, [1, 0, 0, 0, 1, 0, 0, 0]),
   ("GAM9_RESET_VALUE", 0x8F, 0x8F, [1, 0, 0, 0, 1, 1, 1, 1]),
   ("GAM10_RESET_VALUE", 0x96, 0x96, [1, 0, 0, 1, 0, 1, 1, 0]),
   ("GAM11_RESET_VALUE", 0xA3, 0xA3, [1, 0, 1, 0, 0, 0, 1, 1]),
   ("GAM12_RESET_VALUE", 0xAF, 0xAF, [1, 0, 1, 0, 1, 1, 1, 1]),
   ("GAM13_RESET_VALUE", 0xC4, 0xC4, [1, 1, 0, 0, 0, 1, 0, 0]),
   ("GAM14_RESET_VALUE", 0xD7, 0xD7, [1, 1, 0, 1, 0, 1, 1, 1]),
   ("GAM15_RESET_VALUE", 0xE8, 0xE8, [1, 1, 1, 0, 1, 0, 0, 0]),
   ("COM8_RESET_VALUE_ONE", 0xE0, 0xE0, [1, 1, 1, 0, 0, 0, 0, 0]),
   ("COM4_RESET_VALUE", 0x40, 0x40, [0, 1, 0, 0, 0, 0, 0, 0]),
   ("COM9_RESET_VALUE", 0x18, 0x18, [0, 0, 0, 1, 1, 0, 0, 0]),
   ("BD50MAX_RESET_VALUE", 0x05, 0x05, [0, 0, 0, 0, 0, 1, 0, 1]),
   ("BD60MAX_RESET_VALUE", 0x07, 0x07, [0, 0, 0, 0, 0, 1, 1, 1]),
   ("AEW_RESET_VALUE", 0x95, 0x95, [1, 0, 0, 1, 0, 1, 0, 1]),
   ("AEB_RESET_VALUE", 0x33, 0x33, [0, 0, 1, 1, 0, 0, 1, 1, 1]),
   ("VPT_RESET_VALUE", 0xE3, 0xE3, [1, 1, 1, 0, 0, 0, 1, 1]),
   ("HAECC1_RESET_VALUE", 0x78, 0x78, [0, 1, 1, 1, 1, 0, 0, 0]),
   ("HAECC2_RESET_VALUE", 0x68, 0x68, [0, 1, 1, 0, 1, 0, 0, 0]),
   ("RSVD_A1_RESET_VALUE", 0x03, 0x03, [0, 0, 0, 0, 0, 0, 1, 1]),
   ("HAECC3_RESET_VALUE", 0xD8, 0xD8, [1, 1, 0, 1, 1, 0, 0, 0]),
   ("HAECC4_RESET_VALUE", 0xD8, 0xD8, [1, 1, 0, 1, 1, 0, 0, 0]),
   ("HAECC6_RESET_VALUE", 0x90, 0x90, [1, 0, 0, 1, 0, 0, 0, 0]),
   ("HAECC7_RESET_VALUE", 0x94, 0x94, [1, 0, 0, 1, 0, 1, 0, 0]),
   ("COM8_RESET_VALUE_TWO", 0xE5, 0xE5, [1, 1, 1, 0, 0, 1, 0, 1]),
   ("COM5_RESET_VALUE", 0x61, 0x61, [0, 1, 1, 0, 0, 0, 0, 1]),
   ("COM6_RESET_VALUE", 0x4B, 0x4B, [0, 1, 0, 0, 1, 0, 1, 1]),
   ("RSVD_16_RESET_VALUE", 0x02, 0x02, [0, 0, 0, 0, 0, 0, 1, 0]),
   ("MVFP_RESET_VALUE", 0x07, 0x07, [0, 0, 0, 0, 0, 1, 1, 1]),
   ("ADCCTR2_RESET_VALUE", 0x91, 0x91, [1, 0, 0, 1, 0, 0, 0, 1]),
   ("RSVD_29_RESET_VALUE", 0x07, 0x07, [0, 0, 0, 0, 0, 1, 1, 1]),
   ("CHLF_RESET_VALUE", 0x0B, 0x0B, [0, 0, 0, 0, 1, 0, 1, 1]),
   ("RSVD_35_RESET_VALUE", 0x0B, 0x0B, [0, 0, 0, 0, 1, 0, 1, 1]),
   ("ADC_RESET_VALUE", 0x1D, 0x1D, [0, 0, 0, 1, 1, 1, 0, 1]),
   ("ACOM_RESET_VALUE", 0x71, 0x71, [0, 1, 1, 1, 0, 0, 0, 1]),
   ("OFON_RESET_VALUE", 0x2A, 0x2A, [0, 0, 1, 0, 1, 0, 1, 0]),
   ("COM12_RESET_VALUE", 0x78, 0x78, [0, 1, 1, 1, 1, 0, 0, 0]),
   ("RSVD_4D_RESET_VALUE", 0x40, 0x40, [0, 1, 0, 0, 0, 0, 0, 0]),
   ("RSVD_4E_RESET_VALUE", 0x20, 0x20, [0, 0, 1, 0, 0, 0, 0, 0]),
   ("GFIX_RESET_VALUE", 0x00, 0x00, [0, 0, 0, 0, 0, 0, 0, 0]),
   ("DBLV_RESET_VALUE", 0x4A, 0x4A, [0, 1, 0, 0, 1, 0, 1, 0]),
   ("REG74_RESET_VALUE", 0x10, 0x10, [0, 0, 0, 1, 0, 0, 0, 0]),
   ("RSVD_8D_RESET_VALUE", 0x4F, 0x4F, [0, 1, 0, 0, 1, 1, 1, 1]),
   ("RSVD_8E_RESET_VALUE", 0x00, 0x00, [0, 0, 0, 0, 0, 0, 0, 0]),
   ("RSVD_8F_RESET_VALUE", 0x00, 0x00, [0, 0, 0, 0, 0, 0, 0, 0]),
   ("RSVD_90_RESET_VALUE", 0x00, 0x00, [0, 0, 0, 0, 0, 0, 0, 0]),
   ("RSVD_91_RESET_VALUE", 0x00, 0x00, [0, 0, 0, 0, 0, 0, 0, 0]),
   ("RSVD_96_RESET_VALUE_ONE", 0x00, 0x00, [0, 0, 0, 0, 0, 0, 0, 0]),
   ("RSVD_9A_RESET_VALUE_ONE", 0x00, 0x00, [0, 0, 0, 0, 0, 0, 0, 0]),
   ("RSVD_B0_RESET_VALUE", 0x84, 0x84, [1, 0, 0, 0, 0, 1, 0, 0]),
   ("ABLC1_RESET_VALUE", 0x0C, 0x0C, [0, 0, 0, 0, 1, 1, 0, 0]),
   ("RSVD_B2_RESET_VALUE", 0x0E, 0x0E, [0, 0, 0, 0, 1, 1, 1, 0]),
   ("THL_ST_RESET_VALUE", 0x82, 0x82, [1, 0, 0, 0, 0, 0, 1, 0]),
   ("RSVD_B8_RESET_VALUE", 0x0A, 0x0A, [0, 0, 0, 0, 1, 0, 1, 0]),
   ("AWBC1_RESET_VALUE", 0x0A, 0x0A, [0, 0, 0, 0, 1, 0, 1, 0]),
   ("AWBC3_RESET_VALUE", 0x34, 0x34, [0, 0, 1, 1, 0, 1, 0, 0]),
   ("AWBC4_RESET_VALUE", 0x58, 0x58, [0, 1, 0, 1, 1, 0, 0, 0]),
   ("AWBC5_RESET_VALUE", 0x28, 0x28, [0, 0, 1, 0, 1, 0, 0, 0]),
   ("AWBC6_RESET_VALUE", 0x3A, 0x3A, [0, 0, 1, 1, 1, 0, 1, 0]),
   ("RSVD_59_RESET_VALUE", 0x88, 0x88, [1, 0, 0, 0, 1, 0, 0, 0]),
   ("RSVD_5A_RESET_VALUE", 0x88, 0x88, [1, 0, 0, 0, 1, 0, 0, 0]),
   ("RSVD_5B_RESET_VALUE", 0x44, 0x44, [0, 1, 0, 0, 0, 1, 0, 0]),
   ("RSVD_5C_RESET_VALUE", 0x67, 0x67, [0, 1, 1, 0, 0, 1, 1, 1]),
   ("RSVD_5D_RESET_VALUE", 0x49, 0x49, [0, 1, 0, 0, 1, 0, 0, 1]),
   ("RSVD_5E_RESET_VALUE", 0x0E, 0x0E, [0, 0, 0, 0, 1, 1, 1, 0]),
   ("AWBCTR3_RESET_VALUE", 0x0A, 0x0A, [0, 0, 0, 0, 1, 0, 1, 0]),
   ("AWBCTR2_RESET_VALUE", 0x55, 0x55, [0, 1, 0, 1, 0, 1, 0, 1]),
   ("AWBCTR1_RESET_VALUE", 0x11, 0x11, [0, 0, 0, 1, 0, 0, 0, 1]),
   ("AWBCTR0_RESET_VALUE", 0x9F, 0x6F, [0, 1, 1, 0, 1, 1, 1, 1]),
   ("GGAIN_RESET_VALUE", 0x40, 0x40, [0, 1, 0, 0, 0, 0, 0, 0]),
   ("BLUE_GAIN_RESET_VALUE", 0x40, 0x40, [0, 1, 0, 0, 0, 0, 0, 0]),
   ("RED_GAIN_RESET_VALUE", 0x60, 0x60, [0, 1, 1, 0, 0, 0, 0, 0]),
   ("COM8_RESET_VALUE_THREE", 0xE7, 0xE7, [1, 1, 1, 0, 0, 1, 1, 1]),
   ("MTX1_RESET_VALUE", 0x80, 0x80, [1, 0, 0, 0, 0, 0, 0, 0]),
   ("MTX2_RESET_VALUE", 0x80, 0x80, [1, 0, 0, 0, 0, 0, 0, 0]),
   ("MTX3_RESET_VALUE", 0x00, 0x00, [0, 0, 0, 0, 0, 0, 0, 0]),
   ("MTX4_RESET_VALUE", 0x22, 0x22, [0, 0, 1, 0, 0, 0, 1, 0]),
   ("MTX5_RESET_VALUE", 0x5E, 0x5E, [0, 1, 0, 1, 1, 1, 1, 0]),
   ("MTX6_RESET_VALUE", 0x80, 0x80, [1, 0, 0, 0, 0, 0, 0, 0]),
   ("MTXS_RESET_VALUE", 0x9E, 0x9E, [1, 0, 0, 1, 1, 1, 1, 0]),
   ("COM16_RESET_VALUE_ONE", 0x08, 0x08, [0, 0, 0, 0, 1, 0, 0, 0]),
   ("EDGE_RESET_VALUE", 0x00, 0x00, [0, 0, 0, 0, 0, 0, 0, 0]),
   ("REG75_RESET_VALUE", 0x05, 0x05, [0, 0, 0, 0, 0, 1, 0, 1]),
   ("REG76_RESET_VALUE", 0xE1, 0xE1, [1, 1, 1, 0, 0, 0, 0, 1]),
   ("DNSTH_RESET_VALUE", 0x00, 0x00, [0, 0, 0, 0, 0, 0, 0, 0]),
   ("REG77_RESET_VALUE", 0x01, 0x01, [0, 0, 0, 0, 0, 0, 0, 1]),
   ("COM13_RESET_VALUE", 0xC3, 0xC3, [1, 1, 0, 0, 0, 0, 1, 1]),
   ("REG4B_RESET_VALUE", 0x09, 0x09, [0, 0, 0, 0, 1, 0, 0, 1]),
   ("SATCTR_RESET_VALUE", 0x60, 0x60, [0, 1, 1, 0, 0, 0, 0, 0]),
   ("COM16_RESET_VALUE_TWO", 0x38, 0x38, [0, 0, 1, 1, 1, 0, 0, 0]),
   ("COM11_RESET_VALUE", 0x12, 0x12, [0, 0, 0, 1, 0, 0, 1, 0]),
   ("NT_CTRL_RESET_VALUE", 0x88, 0x88, [1, 0, 0, 0, 1, 0, 0, 0]),
   ("RSVD_96_RESET_VALUE_TWO", 0x00, 0x00, [0, 0, 0, 0, 0, 0, 0, 0]),
   ("RSVD_97_RESET_VALUE", 0x30, 0x30, [0, 0, 1, 1, 0, 0, 0, 0]),
   ("RSVD_98_RESET_VALUE", 0x20, 0x20, [0, 0, 2, 0, 0, 0, 0, 0]),
   ("RSVD_99_RESET_VALUE", 0x30, 0x30, [0, 0, 1, 1, 0, 0, 0, 0]),
   ("RSVD_9A_RESET_VALUE_TWO", 0x84, 0x84, [1, 0, 0, 0, 0, 1, 0, 0]),
   ("RSVD_9B_RESET_VALUE", 0x29, 0x29, [0, 0, 1, 0, 1, 0, 0, 1]),
   ("RSVD_9C_RESET_VALUE", 0x03, 0x03, [0, 0, 0, 0, 0, 0, 1, 1]),
   ("BD50ST_RESET_VALUE", 0x4C, 0x4C, [0, 1, 0, 0, 1, 1, 0, 0]),
   ("BD60ST_RESET_VALUE", 0x3F, 0x3F, [0, 0, 1, 1, 1, 1, 1, 1]),
   ("RSVD_78_RESET_VALUE", 0x04, 0x04, [0, 0, 0, 0, 0, 1, 0, 0]),
   ("RSVD_79_RESET_VALUE_ONE", 0x01, 0x01, [0, 0, 0, 0, 0, 0, 0, 1]),
   ("RSVD_C8_RESET_VALUE_ONE", 0xF0, 0xF8, [1, 1, 1, 1, 0, 0, 0, 0]),
   ("RSVD_79_RESET_VALUE_TWO", 0x0F, 0x0F, [0, 0, 0, 0, 1, 1, 1, 1]),
   ("RSVD_C8_RESET_VALUE_TWO", 0x00, 0x00, [0, 0, 0, 0, 0, 0, 0, 0]),
   ("RSVD_79_RESET_VALUE_THREE", 0x10, 0x10, [0, 0, 0, 1, 0, 0, 0, 0]),
   ("RSVD_C8_RESET_VALUE_THREE", 0x7E, 0x7E, [0, 1, 1, 1, 1, 1, 1, 0]),
   ("RSVD_79_RESET_VALUE_FOUR", 0x0A, 0x0A, [0, 0, 0, 1, 1, 0, 1, 0]),
   ("RSVD_C8_RESET_VALUE_FOUR", 0x80, 0x80, [1, 0, 0, 0, 0, 0, 0, 0]),
   ("RSVD_79_RESET_VALUE_FIVE", 0x0B, 0x0B, [0, 0, 0, 0, 1, 0, 1, 1]),
   ("RSVD_C8_RESET_VALUE_FIVE", 0x01, 0x01, [0, 0, 0, 0, 0, 0, 0, 1]),
   ("RSVD_79_RESET_VALUE_SIX", 0x0C, 0x0C, [0, 0, 0, 0, 1, 1, 0, 0]),
   ("RSVD_C8_RESET_VALUE_SIX", 0x0F, 0x0F, [0, 0, 0, 0, 1, 1, 1, 1]),
   ("RSVD_79_RESET_VALUE_SEVEN", 0x0D, 0x0D, [0, 0, 0, 0, 1, 1, 0, 1]),
   ("RSVD_C8_RESET_VALUE_SEVEN", 0x20, 0x20, [0, 0, 1, 0, 0, 0, 0, 0]),
   ("RSVD_79_RESET_VALUE_EIGHT", 0x09, 0x09, [0, 0, 0, 0, 1, 0, 0, 1]),
   ("RSVD_C8_RESET_VALUE_EIGHT", 0x80, 0x80, [1, 0, 0, 0, 0, 0, 0, 0]),
   ("RSVD_79_RESET_VALUE_NINE", 0x02, 0x02, [0, 0, 0, 0, 0, 0, 1, 0]),
   ("RSVD_C8_RESET_VALUE_NINE", 0xC0, 0xC0, [1, 1, 0, 0, 0, 0, 0, 0]),
   ("RSVD_79_RESET_VALUE_TEN", 0x03, 0x03, [0, 0, 0, 0, 0, 0, 1, 1]),
   ("RSVD_C8_RESET_VALUE_TEN", 0x40, 0x40, [0, 1, 0, 0, 0, 0, 0, 0]),
   ("RSVD_79_RESET_VALUE_ELEVEN", 0x05, 0x05, [0, 0, 0, 0, 0, 1, 0, 1]),
   ("RSVD_C8_RESET_VALUE_ELEVEN", 0x30, 0x30, [0, 0, 1, 1, 0, 0, 0, 0]),
   ("RSVD_79_RESET_VALUE_FINAL", 0x26, 0x26, [0, 0, 1, 0, 0, 1, 1, 0])]

/-- The byte written as eight binary digits, most significant first; `none` when the digits
are not eight digits `0` or `1`. -/
def bits_value (ds : List Nat) : Option Nat :=
  if ds.length = 8 ∧ ds.all (fun d => decide (d < 2)) then
    some (ds.foldl (fun a d => 2 * a + d) 0)
  else none

/-- The address constants whose value lies outside what the `@return` line of their doc
comment states. -/
def address_return_mismatches : List (String × Nat) :=
  (OV7670_ADDRESS.zip OV7670_ADDRESS_RETURN).filterMap fun p =>
    match p.2.2 with
    | some (lo, hi) => if lo ≤ p.1.2 ∧ p.1.2 ≤ hi then none else some p.1
    | none => none

/-- The init-value constants whose value differs from the `@return` line of their doc
comment. -/
def reset_value_return_mismatches : List String :=
  (OV7670_RESET_VALUE.filter fun p => p.2.1 != p.2.2.1).map fun p => p.1

/-- The init-value constants whose documented bit pattern is not the byte of their `@return`
line. -/
def reset_value_pattern_mismatches : List String :=
  (OV7670_RESET_VALUE.filter fun p => bits_value p.2.2.2 != some p.2.2.1).map fun p => p.1

/-! ## Reference runs

What a bus, respectively `detect_line`, answers when asked the given requests one after the
other; the programs are compared with these further down. -/

/-- The state of the bus after the transmissions `ts` were requested from it one after the
other, starting in state `b`. -/
def bus_after {σ : Type} (hal : I2C_Master σ) : σ → List I2C_Transmit → σ
  | b, [] => b
  | b, t :: ts => bus_after hal (hal b t).2 ts

/-- The statuses the bus returns for the transmissions `ts`, requested one after the other
starting in state `b`. -/
def bus_statuses {σ : Type} (hal : I2C_Master σ) : σ → List I2C_Transmit → List HAL_StatusTypeDef
  | _, [] => []
  | b, t :: ts => (hal b t).1 :: bus_statuses hal (hal b t).2 ts

/-- The hidden state of `detect_line` after it was called for the slots `0 .. n - 1` in that
order, each time on the content the slot had in `street_lines`, starting in state `st`. -/
def ext_after {σ : Type} (detect_line : DetectLine σ) (image : Image) (width height : Int)
    (street_lines : Fin 10 → street_line) (st : σ) : Nat → σ
  | 0 => st
  | n + 1 =>
    if hn : n < 10 then
      (detect_line (ext_after detect_line image width height street_lines st n) image width
        height ⟨n, hn⟩ (street_lines ⟨n, hn⟩)).ext
    else ext_after detect_line image width height street_lines st n

/-- What `detect_line` answers when it is called for slot `i` after having been called for
the slots below `i`: the call is made on the content slot `i` had in `street_lines`. -/
def nth_call {σ : Type} (detect_line : DetectLine σ) (image : Image) (width height : Int)
    (street_lines : Fin 10 → street_line) (st : σ) (i : Fin 10) : DetectOutcome σ :=
  detect_line (ext_after detect_line image width height street_lines st i) image width height
    i (street_lines i)

section Loop

variable {σ : Type} (detect_line : DetectLine σ) (image : Image) (width height : Int)

theorem foldl_loop_cmds (l : List (Fin 10)) (m : Machine σ) :
    (l.foldl (loop_body detect_line image width height) m).cmds = m.cmds := by
  induction l generalizing m with
  | nil => rfl
  | cons i l ih => rw [List.foldl_cons, ih]; rfl

theorem foldl_loop_num_bounds (l : List (Fin 10)) (m : Machine σ) :
    m.g.num_street_lines
        ≤ (l.foldl (loop_body detect_line image width height) m).g.num_street_lines
      ∧ (l.foldl (loop_body detect_line image width height) m).g.num_street_lines
        ≤ m.g.num_street_lines + l.length := by
  induction l generalizing m with
  | nil => simp
  | cons i l ih =>
    have h := ih (loop_body detect_line image width height m i)
    have hb : m.g.num_street_lines
          ≤ (loop_body detect_line image width height m i).g.num_street_lines
        ∧ (loop_body detect_line image width height m i).g.num_street_lines
          ≤ m.g.num_street_lines + 1 := by
      simp only [loop_body]
      split_ifs <;> omega
    rw [List.foldl_cons, List.length_cons]
    push_cast
    omega

theorem foldl_loop_slots (l : List (Fin 10)) (m : Machine σ) :
    (l.foldl (loop_body detect_line image width height) m).calls.map Call.slot
      = m.calls.map Call.slot ++ l := by
  induction l generalizing m with
  | nil => simp
  | cons i l ih =>
    rw [List.foldl_cons, ih]
    simp [loop_body]

theorem foldl_loop_recorded (l : List (Fin 10)) (hl : l.Nodup) (m : Machine σ)
    (hm : ∀ c ∈ m.calls, c.slot ∉ l ∧ m.g.street_lines c.slot = c.line) :
    ∀ c ∈ (l.foldl (loop_body detect_line image width height) m).calls,
      (l.foldl (loop_body detect_line image width height) m).g.street_lines c.slot
        = c.line := by
  induction l generalizing m with
  | nil => exact fun c hc => (hm c hc).2
  | cons i l ih =>
    rw [List.foldl_cons]
    rw [List.nodup_cons] at hl
    refine ih hl.2 _ ?_
    intro c hc
    simp only [loop_body, List.mem_append, List.mem_singleton] at hc
    rcases hc with hc | hc
    · obtain ⟨hnot, hval⟩ := hm c hc
      rw [List.mem_cons, not_or] at hnot
      refine ⟨hnot.2, ?_⟩
      simp only [loop_body]
      rw [Function.update_noteq hnot.1]
      exact hval
    · subst hc
      refine ⟨hl.1, ?_⟩
      simp [loop_body]

theorem foldl_loop_lines_of_det (ret : Fin 10 → Int)
    (write : Fin 10 → street_line → street_line)
    (hspec : ∀ (i : Fin 10) (st : σ) (s : street_line),
      (detect_line st image width height i s).ret = ret i ∧
      (detect_line st image width height i s).line = write i s)
    (l : List (Fin 10)) (hl : l.Nodup) (m : Machine σ) (i : Fin 10) :
    (l.foldl (loop_body detect_line image width height) m).g.street_lines i
      = if i ∈ l then write i (m.g.street_lines i) else m.g.street_lines i := by
  induction l generalizing m with
  | nil => simp
  | cons j l ih =>
    rw [List.foldl_cons]
    rw [List.nodup_cons] at hl
    rw [ih hl.2]
    by_cases hij : i = j
    · subst hij
      simp [hl.1, loop_body, (hspec i m.ext (m.g.street_lines i)).2]
    · have hji : j ≠ i := fun h => hij h.symm
      simp [hij, loop_body, Function.update_noteq hij]

theorem foldl_loop_num_of_det (ret : Fin 10 → Int)
    (hspec : ∀ (i : Fin 10) (st : σ) (s : street_line),
      (detect_line st image width height i s).ret = ret i)
    (l : List (Fin 10)) (m m' : Machine σ)
    (hnum : m.g.num_street_lines = m'.g.num_street_lines) :
    (l.foldl (loop_body detect_line image width height) m).g.num_street_lines
      = (l.foldl (loop_body detect_line image width height) m').g.num_street_lines := by
  induction l generalizing m m' with
  | nil => exact hnum
  | cons j l ih =>
    rw [List.foldl_cons, List.foldl_cons]
    apply ih
    simp only [loop_body, hspec, hnum]

theorem detection_loop_cmds (g : Globals) (st : σ) :
    (detection_loop detect_line image width height g st).cmds = [] := by
  unfold detection_loop
  rw [foldl_loop_cmds]

theorem control_g (m : Machine σ) : (control width m).g = m.g := by
  unfold control
  split_ifs <;> rfl

theorem detection_loop_num_bounds (g : Globals) (st : σ) :
    0 ≤ (detection_loop detect_line image width height g st).g.num_street_lines
      ∧ (detection_loop detect_line image width height g st).g.num_street_lines ≤ 10 := by
  have h := foldl_loop_num_bounds detect_line image width height (List.finRange 10)
    { g := { street_lines := g.street_lines, num_street_lines := 0 }
      ext := st
      calls := []
      cmds := [] }
  simp only [List.length_finRange] at h
  unfold detection_loop
  constructor
  · exact h.1
  · have h2 := h.2
    norm_num at h2
    exact h2

theorem control_calls (m : Machine σ) : (control width m).calls = m.calls := by
  unfold control
  split_ifs <;> rfl

theorem control_ext (m : Machine σ) : (control width m).ext = m.ext := by
  unfold control
  split_ifs <;> rfl

theorem detection_loop_slots (g : Globals) (st : σ) :
    (detection_loop detect_line image width height g st).calls.map Call.slot
      = List.finRange 10 := by
  unfold detection_loop
  rw [foldl_loop_slots]
  rfl

theorem detection_loop_recorded (g : Globals) (st : σ) :
    ∀ c ∈ (detection_loop detect_line image width height g st).calls,
      (detection_loop detect_line image width height g st).g.street_lines c.slot
        = c.line := by
  unfold detection_loop
  apply foldl_loop_recorded detect_line image width height _ (List.nodup_finRange 10)
  intro c hc
  simp at hc

theorem detect_second_deterministic (x : Int) (image : Image) (width height : Int) :
    Deterministic (detect_second x) image width height := by
  intro i
  refine ⟨if i = 1 then 1 else 0, fun s => if i = 1 then line_at x else s, ?_, ?_⟩
  · intro s
    split_ifs <;> rfl
  · intro st s
    unfold detect_second
    split_ifs <;> exact ⟨rfl, rfl⟩

end Loop

/-! ## The reactive controller (lines 100-134) -/

/-- C1: for every image, width and height, when the detection loop ends with
`num_street_lines == 0`, the commands issued by that call of `detect_street_lines` are
exactly one `stop_vehicle` and nothing else. -/
theorem C1_no_line_stops {σ : Type} (detect_line : DetectLine σ) (image : Image)
    (width height : Int) (g : Globals) (st : σ)
    (h0 : (detection_loop detect_line image width height g st).g.num_street_lines = 0) :
    (detect_street_lines detect_line image width height g st).cmds = [Command.Stop] := by
  unfold detect_street_lines control
  rw [if_pos h0]
  simp [stop_vehicle, issue, detection_loop_cmds]

/-- C1 at a detector that finds nothing in a 320x240 frame. -/
theorem C1_no_line_stops_witness :
    (detection_loop detect_none [] 320 240 zero_globals ()).g.num_street_lines = 0
      ∧ (detect_street_lines detect_none [] 320 240 zero_globals ()).cmds
          = [Command.Stop] :=
  ⟨by decide, C1_no_line_stops detect_none [] 320 240 zero_globals () (by decide)⟩

/-- C2: when the detection loop ends with `num_street_lines == 1`, a `street_lines[0].x1`
strictly below `width / 2` yields exactly `turn_right` then `slow_down`, and one strictly
above `width / 2` yields exactly `turn_left` then `slow_down`. -/
theorem C2_single_line_turns_away {σ : Type} (detect_line : DetectLine σ) (image : Image)
    (width height : Int) (g : Globals) (st : σ)
    (h1 : (detection_loop detect_line image width height g st).g.num_street_lines = 1) :
    (((detection_loop detect_line image width height g st).g.street_lines 0).x1
          < Int.tdiv width 2 →
        (detect_street_lines detect_line image width height g st).cmds
          = [Command.TurnRight, Command.SlowDown])
      ∧ (((detection_loop detect_line image width height g st).g.street_lines 0).x1
          > Int.tdiv width 2 →
        (detect_street_lines detect_line image width height g st).cmds
          = [Command.TurnLeft, Command.SlowDown]) := by
  have hne : (detection_loop detect_line image width height g st).g.num_street_lines ≠ 0 := by
    rw [h1]; decide
  constructor
  · intro hlt
    unfold detect_street_lines control
    rw [if_neg hne, if_pos h1, if_pos hlt]
    simp [slow_down, turn_right, issue, detection_loop_cmds]
  · intro hgt
    have hnlt : ¬ ((detection_loop detect_line image width height g st).g.street_lines 0).x1
        < Int.tdiv width 2 := not_lt.mpr (le_of_lt hgt)
    unfold detect_street_lines control
    rw [if_neg hne, if_pos h1, if_neg hnlt]
    simp [slow_down, turn_left, issue, detection_loop_cmds]

/-- C2 at the two scenarios of the specification: one line at `x1 = 50`, and one line at
`x1 = 270`, both with `width = 320`. -/
theorem C2_single_line_turns_away_witness :
    (detect_street_lines (detect_first 50) [] 320 240 zero_globals ()).cmds
        = [Command.TurnRight, Command.SlowDown]
      ∧ (detect_street_lines (detect_first 270) [] 320 240 zero_globals ()).cmds
        = [Command.TurnLeft, Command.SlowDown] :=
  ⟨(C2_single_line_turns_away (detect_first 50) [] 320 240 zero_globals ()
      (by decide)).1 (by decide),
   (C2_single_line_turns_away (detect_first 270) [] 320 240 zero_globals ()
      (by decide)).2 (by decide)⟩

/-- C3, evaluated on the code: with two lines found, `street_lines[0].x1 = 50` and
`street_lines[1].x1 = 270` at `width = 320` give `proceed_straight`, but the same two
lines in the other order (`270` in slot 0, `50` in slot 1), still on opposite sides of the
midpoint 160, give `slow_down`. -/
theorem C3_opposite_sides_reversed_slows_down :
    (detection_loop (detect_two 270 50) [] 320 240 zero_globals ()).g.num_street_lines = 2
      ∧ ((detection_loop (detect_two 270 50) [] 320 240 zero_globals ()).g.street_lines 0).x1
          > Int.tdiv 320 2
      ∧ ((detection_loop (detect_two 270 50) [] 320 240 zero_globals ()).g.street_lines 1).x1
          < Int.tdiv 320 2
      ∧ (detect_street_lines (detect_two 270 50) [] 320 240 zero_globals ()).cmds
          = [Command.SlowDown]
      ∧ (detect_street_lines (detect_two 50 270) [] 320 240 zero_globals ()).cmds
          = [Command.ProceedStraight] := by
  decide

/-- C4: when the detection loop ends with `num_street_lines >= 2` and `street_lines[0].x1`,
`street_lines[1].x1` are both strictly below `width / 2` or both strictly above it, the only
command issued is a single `slow_down`. -/
theorem C4_same_side_slows_down {σ : Type} (detect_line : DetectLine σ) (image : Image)
    (width height : Int) (g : Globals) (st : σ)
    (h2 : 2 ≤ (detection_loop detect_line image width height g st).g.num_street_lines)
    (hside :
      (((detection_loop detect_line image width height g st).g.street_lines 0).x1
            < Int.tdiv width 2
          ∧ ((detection_loop detect_line image width height g st).g.street_lines 1).x1
            < Int.tdiv width 2)
        ∨ (((detection_loop detect_line image width height g st).g.street_lines 0).x1
            > Int.tdiv width 2
          ∧ ((detection_loop detect_line image width height g st).g.street_lines 1).x1
            > Int.tdiv width 2)) :
    (detect_street_lines detect_line image width height g st).cmds = [Command.SlowDown] := by
  have h0 : (detection_loop detect_line image width height g st).g.num_street_lines ≠ 0 := by
    omega
  have h1 : (detection_loop detect_line image width height g st).g.num_street_lines ≠ 1 := by
    omega
  have hnot : ¬ (((detection_loop detect_line image width height g st).g.street_lines 0).x1
        < Int.tdiv width 2
      ∧ ((detection_loop detect_line image width height g st).g.street_lines 1).x1
        > Int.tdiv width 2) := by
    rintro ⟨ha, hb⟩
    rcases hside with ⟨_, hc⟩ | ⟨hc, _⟩
    · exact absurd hb (not_lt.mpr (le_of_lt hc))
    · exact absurd ha (not_lt.mpr (le_of_lt hc))
  unfold detect_street_lines control
  rw [if_neg h0, if_neg h1, if_neg hnot]
  simp [slow_down, issue, detection_loop_cmds]

/-- C4 at the scenario of the specification: two lines at `x1 = 40` and `x1 = 60` with
`width = 320`. -/
theorem C4_same_side_slows_down_witness :
    2 ≤ (detection_loop (detect_two 40 60) [] 320 240 zero_globals ()).g.num_street_lines
      ∧ (detect_street_lines (detect_two 40 60) [] 320 240 zero_globals ()).cmds
          = [Command.SlowDown] :=
  ⟨by decide,
   C4_same_side_slows_down (detect_two 40 60) [] 320 240 zero_globals () (by decide)
     (Or.inl (by decide))⟩

/-! ## The detection loop (lines 90-97) -/

/-- C5: after every call of `detect_street_lines`, whatever `detect_line` returns and
whatever the globals held before, `0 <= num_street_lines <= 10`. -/
theorem C5_count_within_capacity {σ : Type} (detect_line : DetectLine σ) (image : Image)
    (width height : Int) (g : Globals) (st : σ) :
    0 ≤ (detect_street_lines detect_line image width height g st).g.num_street_lines
      ∧ (detect_street_lines detect_line image width height g st).g.num_street_lines
          ≤ 10 := by
  unfold detect_street_lines
  rw [control_g]
  exact detection_loop_num_bounds detect_line image width height g st

/-- C6, evaluated on the code: with a `detect_line` that reports failure for slot 0 (leaving
it alone) and success for slot 1 only, the call ends with `num_street_lines = 1`; the ten
calls returned `0, 1, 0, ..., 0` for slots `0 .. 9`; slot 0, the only one below the count,
still holds what it held before the call, and the segment found sits in slot 1. -/
theorem C6_counted_slot_not_filled :
    (detect_street_lines (detect_second 270) [] 320 240 zero_globals ()).g.num_street_lines
        = 1
      ∧ (detect_street_lines (detect_second 270) [] 320 240 zero_globals ()).calls.map
          (fun c => ((c.slot : Nat), c.ret))
        = [(0, 0), (1, 1), (2, 0), (3, 0), (4, 0), (5, 0), (6, 0), (7, 0), (8, 0), (9, 0)]
      ∧ (detect_street_lines (detect_second 270) [] 320 240 zero_globals ()).g.street_lines 0
        = zero_globals.street_lines 0
      ∧ (detect_street_lines (detect_second 270) [] 320 240 zero_globals ()).g.street_lines 1
        = line_at 270 := by
  decide

/-- C7, evaluated on the code: the same frame, width, height and `detect_line` (failure for
slot 0, a line at `x1 = 100` for slot 1) give `turn_right, slow_down` when slot 0 held a
segment at `x1 = 50` before the call and `turn_left, slow_down` when it held one at
`x1 = 270`. -/
theorem C7_stale_slot_steers :
    (detect_street_lines (detect_second 100) [] 320 240 (stale_globals 50) ()).cmds
        = [Command.TurnRight, Command.SlowDown]
      ∧ (detect_street_lines (detect_second 100) [] 320 240 (stale_globals 270) ()).cmds
        = [Command.TurnLeft, Command.SlowDown]
      ∧ (detect_street_lines (detect_second 100) [] 320 240 (stale_globals 50) ()).cmds
        ≠ (detect_street_lines (detect_second 100) [] 320 240 (stale_globals 270) ()).cmds := by
  decide

/-- C8: when the detection loop ends with `num_street_lines >= 2`, the commands issued
contain neither `turn_left` nor `turn_right`. -/
theorem C8_two_lines_never_turn {σ : Type} (detect_line : DetectLine σ) (image : Image)
    (width height : Int) (g : Globals) (st : σ)
    (h2 : 2 ≤ (detection_loop detect_line image width height g st).g.num_street_lines) :
    Command.TurnLeft ∉ (detect_street_lines detect_line image width height g st).cmds
      ∧ Command.TurnRight ∉ (detect_street_lines detect_line image width height g st).cmds := by
  have h0 : (detection_loop detect_line image width height g st).g.num_street_lines ≠ 0 := by
    omega
  have h1 : (detection_loop detect_line image width height g st).g.num_street_lines ≠ 1 := by
    omega
  unfold detect_street_lines control
  rw [if_neg h0, if_neg h1]
  split_ifs <;> simp [proceed_straight, slow_down, issue, detection_loop_cmds]

/-- C8 at two lines on opposite sides (`x1 = 270` and `x1 = 50`, `width = 320`). -/
theorem C8_two_lines_never_turn_witness :
    2 ≤ (detection_loop (detect_two 270 50) [] 320 240 zero_globals ()).g.num_street_lines
      ∧ Command.TurnLeft
          ∉ (detect_street_lines (detect_two 270 50) [] 320 240 zero_globals ()).cmds
      ∧ Command.TurnRight
          ∉ (detect_street_lines (detect_two 270 50) [] 320 240 zero_globals ()).cmds :=
  ⟨by decide, C8_two_lines_never_turn (detect_two 270 50) [] 320 240 zero_globals () (by decide)⟩

/-- C9, refuted as stated: with a `detect_line` that finds a segment of length `i + 1` in
every slot `i`, the call ends with `num_street_lines = 10`, `street_lines[0].length = 1` and
`street_lines[1].length = 2`, so the counted entries are not in non-increasing length
order. -/
theorem C9_entries_not_sorted :
    ¬ sorted_by_length (detect_street_lines detect_growing [] 320 240 zero_globals ()).g := by
  intro h
  have h01 := h 0 1 (by decide) (by decide)
  revert h01
  decide

/-- C9, amended: `detect_street_lines` never reorders.  After every call each slot holds
exactly what the `detect_line` call for that slot left in it, so the first
`num_street_lines` entries are ordered by non-increasing length whenever the segments
`detect_line` left, taken in slot order, are. -/
theorem C9_slot_order_kept {σ : Type} (detect_line : DetectLine σ) (image : Image)
    (width height : Int) (g : Globals) (st : σ) :
    (∀ c ∈ (detect_street_lines detect_line image width height g st).calls,
        (detect_street_lines detect_line image width height g st).g.street_lines c.slot
          = c.line)
      ∧ ((∀ c ∈ (detect_street_lines detect_line image width height g st).calls,
          ∀ d ∈ (detect_street_lines detect_line image width height g st).calls,
            c.slot ≤ d.slot → d.line.length ≤ c.line.length) →
        sorted_by_length (detect_street_lines detect_line image width height g st).g) := by
  unfold detect_street_lines
  rw [control_g, control_calls]
  have hrec := detection_loop_recorded detect_line image width height g st
  refine ⟨hrec, ?_⟩
  intro hs i j hij _
  have hmem : ∀ k : Fin 10,
      k ∈ (detection_loop detect_line image width height g st).calls.map Call.slot := by
    intro k
    rw [detection_loop_slots]
    exact List.mem_finRange k
  obtain ⟨c, hc, hci⟩ := List.mem_map.1 (hmem i)
  obtain ⟨d, hd, hdj⟩ := List.mem_map.1 (hmem j)
  subst hci
  subst hdj
  rw [hrec c hc, hrec d hd]
  exact hs c hc d hd hij

/-- C9 (amended) at a `detect_line` that finds a segment of length `10 - i` in every slot
`i`. -/
theorem C9_slot_order_kept_witness :
    sorted_by_length (detect_street_lines detect_shrinking [] 320 240 zero_globals ()).g :=
  (C9_slot_order_kept detect_shrinking [] 320 240 zero_globals ()).2 (by decide)

/-- C10: with a deterministic `detect_line`, a second call of `detect_street_lines` on the
same image, width and height, made right after the first, leaves `street_lines` and
`num_street_lines` equal to what the first call left. -/
theorem C10_second_call_same_globals {σ : Type} (detect_line : DetectLine σ)
    (image : Image) (width height : Int) (g : Globals) (st : σ)
    (hdet : Deterministic detect_line image width height) :
    (detect_street_lines detect_line image width height
        (detect_street_lines detect_line image width height g st).g
        (detect_street_lines detect_line image width height g st).ext).g.street_lines
        = (detect_street_lines detect_line image width height g st).g.street_lines
      ∧ (detect_street_lines detect_line image width height
          (detect_street_lines detect_line image width height g st).g
          (detect_street_lines detect_line image width height g st).ext).g.num_street_lines
        = (detect_street_lines detect_line image width height g st).g.num_street_lines := by
  choose ret write hidem hspec using hdet
  unfold detect_street_lines
  simp only [control_g, control_ext]
  unfold detection_loop
  constructor
  · funext i
    rw [foldl_loop_lines_of_det detect_line image width height ret write hspec _
      (List.nodup_finRange 10)]
    rw [foldl_loop_lines_of_det detect_line image width height ret write hspec _
      (List.nodup_finRange 10)]
    simp [List.mem_finRange, hidem]
  · exact foldl_loop_num_of_det detect_line image width height ret
      (fun i st s => (hspec i st s).1) _ _ _ rfl

/-- C10 at a `detect_line` that finds a line for slot 1 only, started from globals in which
slot 0 holds a segment of an earlier cycle. -/
theorem C10_second_call_same_globals_witness :
    Deterministic (detect_second 270) [] 320 240
      ∧ (detect_street_lines (detect_second 270) [] 320 240
          (detect_street_lines (detect_second 270) [] 320 240 (stale_globals 50) ()).g
          (detect_street_lines (detect_second 270) [] 320 240 (stale_globals 50) ()).ext
          ).g.street_lines
        = (detect_street_lines (detect_second 270) [] 320 240 (stale_globals 50) ()
          ).g.street_lines
      ∧ (detect_street_lines (detect_second 270) [] 320 240
          (detect_street_lines (detect_second 270) [] 320 240 (stale_globals 50) ()).g
          (detect_street_lines (detect_second 270) [] 320 240 (stale_globals 50) ()).ext
          ).g.num_street_lines
        = (detect_street_lines (detect_second 270) [] 320 240 (stale_globals 50) ()
          ).g.num_street_lines :=
  ⟨detect_second_deterministic 270 [] 320 240,
   C10_second_call_same_globals (detect_second 270) [] 320 240 (stale_globals 50) ()
     (detect_second_deterministic 270 [] 320 240)⟩

/-! ## What the loop does not check -/

/-- Every logged call is a call of `detect_line` on the arguments of this run. -/
theorem foldl_loop_calls_origin {σ : Type} (detect_line : DetectLine σ) (image : Image)
    (width height : Int) (l : List (Fin 10)) (m : Machine σ)
    (hm : ∀ c ∈ m.calls, ∃ (st : σ) (s : street_line),
      c.ret = (detect_line st image width height c.slot s).ret
        ∧ c.line = (detect_line st image width height c.slot s).line) :
    ∀ c ∈ (l.foldl (loop_body detect_line image width height) m).calls,
      ∃ (st : σ) (s : street_line),
        c.ret = (detect_line st image width height c.slot s).ret
          ∧ c.line = (detect_line st image width height c.slot s).line := by
  induction l generalizing m with
  | nil => exact hm
  | cons i l ih =>
    rw [List.foldl_cons]
    apply ih
    intro c hc
    simp only [loop_body, List.mem_append, List.mem_singleton] at hc
    rcases hc with hc | hc
    · exact hm c hc
    · subst hc
      exact ⟨m.ext, m.g.street_lines i, rfl, rfl⟩

/-- C11, refuted as stated: with a `detect_line` that reports success for every slot while
leaving a segment with coinciding endpoints and `length = 0`, the call ends with
`num_street_lines = 10` and every counted entry is degenerate. -/
theorem C11_degenerate_entry_counted :
    ¬ (∀ i : Fin 10,
        ((i : Nat) : Int)
            < (detect_street_lines detect_flat [] 320 240 zero_globals ()).g.num_street_lines →
          nondegenerate
            ((detect_street_lines detect_flat [] 320 240 zero_globals ()).g.street_lines i)) := by
  intro h
  have h0 := h 0 (by decide)
  revert h0
  decide

/-- C11, amended: `detect_street_lines` checks no segment itself.  When `detect_line`
reports success only with a non-degenerate segment (`length > 0`, distinct endpoints) left in
the slot, then after the call every slot whose `detect_line` call reported success holds
such a segment. -/
theorem C11_successful_slots_nondegenerate {σ : Type} (detect_line : DetectLine σ)
    (image : Image) (width height : Int) (g : Globals) (st : σ)
    (hdl : ∀ (st' : σ) (i : Fin 10) (s : street_line),
      (detect_line st' image width height i s).ret ≠ 0 →
        nondegenerate (detect_line st' image width height i s).line) :
    ∀ c ∈ (detect_street_lines detect_line image width height g st).calls, c.ret ≠ 0 →
      nondegenerate
        ((detect_street_lines detect_line image width height g st).g.street_lines c.slot) := by
  unfold detect_street_lines
  rw [control_g, control_calls]
  intro c hc hret
  rw [detection_loop_recorded detect_line image width height g st c hc]
  have horigin := foldl_loop_calls_origin detect_line image width height (List.finRange 10)
    { g := { street_lines := g.street_lines, num_street_lines := 0 }
      ext := st
      calls := []
      cmds := [] }
    (by intro c hc; simp at hc) c hc
  obtain ⟨st', s, h1, h2⟩ := horigin
  rw [h2]
  apply hdl
  rw [← h1]
  exact hret

/-- C11 (amended) at a `detect_line` that finds two proper segments, in slots 0 and 1: the
segment counted for slot 0 is non-degenerate. -/
theorem C11_successful_slots_nondegenerate_witness :
    nondegenerate
      ((detect_street_lines (detect_two 50 270) [] 320 240 zero_globals ()).g.street_lines 0) :=
  C11_successful_slots_nondegenerate (detect_two 50 270) [] 320 240 zero_globals ()
    (by
      intro st' i s
      unfold detect_two
      split_ifs
      · decide
      · decide
      · intro hret
        exact absurd rfl hret)
    ⟨[], 320, 240, 0, 1, line_at 50⟩ (by decide) (by decide)

theorem OV7670_init_requests {σ : Type} (hal : I2C_Master σ) (bus : σ) :
    (OV7670_init hal bus).log.map Prod.fst = OV7670_init_transmissions := by
  simp [OV7670_init, HAL_I2C_Master_Transmit, OV7670_init_transmissions,
    OV7670_WRITE_ADDRESS, OV7670_TIMEOUT, OV7670_COM7_SOFT_RESET, OV7670_CLKRC_RESET_VALUE,
    OV7670_TSLB_RESET_VALUE, OV7670_COM7_RESET_VALUE, OV7670_HSTART_RESET_VALUE,
    OV7670_HSTOP_RESET_VALUE, OV7670_HREF_RESET_VALUE, OV7670_VSTART_RESET_VALUE,
    OV7670_VSTOP_RESET_VALUE, OV7670_VREF_RESET_VALUE, OV7670_COM14_RESET_VALUE,
    OV7670_SCALING_XSC_RESET_VALUE, OV7670_SCALING_PCLK_DIV_RESET_VALUE]

/-- C13, refuted as stated: on a bus that answers the first transmission with `HAL_ERROR`,
`OV7670_init` still issues the twelve later writes, and returns no value at all. -/
theorem C13_writes_continue_after_failure :
    (OV7670_init bus_first_fails 0).log.map Prod.snd
        = [HAL_StatusTypeDef.HAL_ERROR, HAL_StatusTypeDef.HAL_OK, HAL_StatusTypeDef.HAL_OK,
           HAL_StatusTypeDef.HAL_OK, HAL_StatusTypeDef.HAL_OK, HAL_StatusTypeDef.HAL_OK,
           HAL_StatusTypeDef.HAL_OK, HAL_StatusTypeDef.HAL_OK, HAL_StatusTypeDef.HAL_OK,
           HAL_StatusTypeDef.HAL_OK, HAL_StatusTypeDef.HAL_OK, HAL_StatusTypeDef.HAL_OK,
           HAL_StatusTypeDef.HAL_OK]
      ∧ (OV7670_init bus_first_fails 0).log.length = 13
      ∧ (OV7670_init bus_first_fails 0).ret = none := by
  decide

/-- C13, amended: `OV7670_init` never looks at the status `HAL_I2C_Master_Transmit` returns.
Whatever the statuses, it issues all thirteen writes, the same ones in the same order. -/
theorem C13_all_writes_issued_whatever_status {σ τ : Type} (hal : I2C_Master σ) (bus : σ)
    (hal' : I2C_Master τ) (bus' : τ) :
    (OV7670_init hal bus).log.length = 13
      ∧ (OV7670_init hal bus).log.map Prod.fst = (OV7670_init hal' bus').log.map Prod.fst := by
  constructor
  · have h := congrArg List.length (OV7670_init_requests hal bus)
    rw [List.length_map] at h
    rw [h]
    rfl
  · rw [OV7670_init_requests, OV7670_init_requests]

/-- C14, evaluated on the code: every transmission of `OV7670_init` carries one byte, the
value alone.  The first one sends `0x80` to the device, not the pair `(0x12, 0x80)`. -/
theorem C14_payload_is_value_only :
    (∀ t ∈ (OV7670_init bus_ok ()).log.map Prod.fst, t.Size = 1 ∧ t.pData.length = 1)
      ∧ ((OV7670_init bus_ok ()).log.map Prod.fst).head? = some ⟨0x42, [0x80], 1, 15⟩
      ∧ (∀ t ∈ (OV7670_init bus_ok ()).log.map Prod.fst, t.pData ≠ [0x12, 0x80]) := by
  decide

/-- C15: `OV7670_init` issues exactly thirteen writes, each carrying one value, and the
values are, write by write, `0x80`, `0x01`, `0x04`, `0x00`, `0x13`, `0x01`, `0xB6`, `0x02`,
`0x7A`, `0x0A`, `0x00`, `0x3A`, `0xF0`: the soft reset first, the clock prescaler second, the
six timing-window values (`HSTART` to `VREF`) in places five to ten.  The writes reach the
bus in that order: the statuses logged are those the bus returns for these thirteen requests
one after the other, and the bus is left in the state they lead to. -/
theorem C15_init_sequence {σ : Type} (hal : I2C_Master σ) (bus : σ) :
    (OV7670_init hal bus).log.length = 13
      ∧ (OV7670_init hal bus).log.map (fun e => e.1.pData)
        = [[0x80], [0x01], [0x04], [0x00], [0x13], [0x01], [0xB6], [0x02], [0x7A], [0x0A],
           [0x00], [0x3A], [0xF0]]
      ∧ (OV7670_init hal bus).log.map (fun e => e.1.pData)
        = [[OV7670_COM7_SOFT_RESET], [OV7670_CLKRC_RESET_VALUE], [OV7670_TSLB_RESET_VALUE],
           [OV7670_COM7_RESET_VALUE], [OV7670_HSTART_RESET_VALUE], [OV7670_HSTOP_RESET_VALUE],
           [OV7670_HREF_RESET_VALUE], [OV7670_VSTART_RESET_VALUE], [OV7670_VSTOP_RESET_VALUE],
           [OV7670_VREF_RESET_VALUE], [OV7670_COM14_RESET_VALUE],
           [OV7670_SCALING_XSC_RESET_VALUE], [OV7670_SCALING_PCLK_DIV_RESET_VALUE]]
      ∧ (OV7670_init hal bus).log.map Prod.fst = OV7670_init_transmissions
      ∧ (OV7670_init hal bus).log.map Prod.snd
        = bus_statuses hal bus OV7670_init_transmissions
      ∧ (OV7670_init hal bus).bus = bus_after hal bus OV7670_init_transmissions := by
  have hreq := OV7670_init_requests hal bus
  have hmap : (OV7670_init hal bus).log.map (fun e => e.1.pData)
      = OV7670_init_transmissions.map I2C_Transmit.pData := by
    rw [← hreq, List.map_map]
    rfl
  refine ⟨?_, ?_, ?_, hreq, ?_, ?_⟩
  · have h := congrArg List.length hreq
    rw [List.length_map] at h
    rw [h]
    rfl
  · rw [hmap]
    rfl
  · rw [hmap]
    rfl
  · rfl
  · rfl

/-! ## The register maps -/

/-- C16: the 202 register-address constants `OV7670_*_ADDRESS` of `src/ov7670.h` are pairwise
distinct and cover `0x00 .. 0xC9` exactly: every address of that range is the value of
exactly one constant, and no constant lies outside it. -/
theorem C16_addresses_cover_range :
    OV7670_ADDRESS.length = 202
      ∧ (OV7670_ADDRESS.map Prod.snd).Nodup
      ∧ (∀ a, a < 0xCA → (OV7670_ADDRESS.map Prod.snd).count a = 1)
      ∧ (∀ p ∈ OV7670_ADDRESS, p.2 < 0xCA) := by
  decide!

/-- C17, evaluated on the code: the two headers give different addresses to 20 registers
they both name (for instance `RAVE`: `0x07` in `src/src/ov7670.h`, `0x08` in
`src/ov7670.h`), and `src/src/ov7670.h` defines `OV7670_REG_SLOP` twice, as `0x51` and as
`0x7A`. -/
theorem C17_register_maps_disagree :
    OV7670_REG.lookup "RAVE" = some 0x07
      ∧ OV7670_ADDRESS.lookup "RAVE" = some 0x08
      ∧ ("SLOP", 0x51) ∈ OV7670_REG
      ∧ ("SLOP", 0x7A) ∈ OV7670_REG
      ∧ (∀ n ∈ ["RAVE", "ADC", "ACOM", "OFON", "DBLV", "AWBCTR3", "AWBCTR2", "AWBCTR1",
            "AWBCTR0", "LCC6", "LCC7", "AECH", "HAECC1", "HAECC2", "HAECC3", "HAECC4",
            "HAECC5", "HAECC6", "HAECC7", "BD50MAX"],
          addresses_differ n = true) := by
  decide!

/-! ## Capture bring-up (`src/Street Line Detection/Core/Src/main.c`) -/

/-- C18, evaluated on the code: when `HAL_DMA_Init` (line 92), `HAL_DCMI_Init` (line 113),
`HAL_DMA_Start_IT` (line 144) or `HAL_DCMI_Start_DMA` (line 147) returns `HAL_ERROR`, `main`
reaches its endless loop without `Error_Handler` ever being called; the same failure of
`HAL_DCMI_Init` inside `MX_DCMI_Init` (line 264) does call `Error_Handler`. -/
theorem C18_capture_failures_unreported :
    (∀ l ∈ [92, 113, 144, 147],
        (H7.main (H7.fails_at l)).phase = H7.Phase.looping
          ∧ H7.error_reported (H7.main (H7.fails_at l)) = false
          ∧ (H7.main (H7.fails_at l)).trace.any
              (fun e => decide (e.line = l ∧ e.status = some HAL_StatusTypeDef.HAL_ERROR))
            = true)
      ∧ (H7.main (H7.fails_at 264)).phase = H7.Phase.halted
      ∧ H7.error_reported (H7.main (H7.fails_at 264)) = true := by
  decide

/-! ## The capture loop (`src/src/main.c`) -/

/-- C19, evaluated on the code: however many frames `main` receives and whatever status each
receive returns, `main` never calls `detect_street_lines`; a pass through its loop is the
receive alone. -/
theorem C19_frames_never_processed (k : MissingMacros) (statuses : List HAL_StatusTypeDef)
    (image : Image) (width height : Int) :
    Action.detect_street_lines image width height ∉ main k statuses
      ∧ main k [HAL_StatusTypeDef.HAL_OK]
        = camera_init k ++ camera_start_capture k
          ++ [Action.HAL_I2C_Master_Receive k.OV7670_I2C_ADDR 1024 100
                HAL_StatusTypeDef.HAL_OK] := by
  constructor
  · simp [main, camera_init, camera_start_capture, main_loop_pass]
  · rfl

/-- C20, evaluated on the code: `camera_start_capture` writes
`OV7670_COM7_FMT_RGB565 | OV7670_COM7_RES_QVGA = 0x05` to COM7.  In that value bit 4 (QVGA
selection) is clear, bit 2 (RGB selection) is set and bit 0 (raw RGB) is set. -/
theorem C20_com7_value_bits :
    camera_start_capture sample_macros
        = [Action.ov7670_write_reg 0x12 0x05, Action.ov7670_write_reg 0x09 0x10]
      ∧ (OV7670_COM7_FMT_RGB565 ||| OV7670_COM7_RES_QVGA) = 0x05
      ∧ (OV7670_COM7_FMT_RGB565 ||| OV7670_COM7_RES_QVGA).testBit 4 = false
      ∧ (OV7670_COM7_FMT_RGB565 ||| OV7670_COM7_RES_QVGA).testBit 2 = true
      ∧ (OV7670_COM7_FMT_RGB565 ||| OV7670_COM7_RES_QVGA).testBit 0 = true := by
  decide

/-! ## The detection loop, call by call -/

theorem foldl_loop_args {σ : Type} (detect_line : DetectLine σ) (image : Image)
    (width height : Int) (l : List (Fin 10)) (m : Machine σ)
    (hm : ∀ c ∈ m.calls, c.image = image ∧ c.width = width ∧ c.height = height) :
    ∀ c ∈ (l.foldl (loop_body detect_line image width height) m).calls,
      c.image = image ∧ c.width = width ∧ c.height = height := by
  induction l generalizing m with
  | nil => exact hm
  | cons i l ih =>
    rw [List.foldl_cons]
    apply ih
    intro c hc
    simp only [loop_body, List.mem_append, List.mem_singleton] at hc
    rcases hc with hc | hc
    · exact hm c hc
    · subst hc
      exact ⟨rfl, rfl, rfl⟩

theorem foldl_loop_count {σ : Type} (detect_line : DetectLine σ) (image : Image)
    (width height : Int) (l : List (Fin 10)) (m : Machine σ)
    (hm : m.g.num_street_lines = ((m.calls.countP fun c => decide (c.ret ≠ 0) : Nat) : Int)) :
    (l.foldl (loop_body detect_line image width height) m).g.num_street_lines
      = (((l.foldl (loop_body detect_line image width height) m).calls.countP
          fun c => decide (c.ret ≠ 0) : Nat) : Int) := by
  induction l generalizing m with
  | nil => exact hm
  | cons i l ih =>
    rw [List.foldl_cons]
    apply ih
    simp only [loop_body, List.countP_append, List.countP_cons, List.countP_nil, hm]
    split_ifs <;> simp_all

theorem detection_loop_calls {σ : Type} (detect_line : DetectLine σ) (image : Image)
    (width height : Int) (g : Globals) (st : σ) :
    (detection_loop detect_line image width height g st).calls
        = (List.finRange 10).map (fun i =>
            (⟨image, width, height, i,
              (nth_call detect_line image width height g.street_lines st i).ret,
              (nth_call detect_line image width height g.street_lines st i).line⟩ : Call))
      ∧ (detection_loop detect_line image width height g st).ext
        = ext_after detect_line image width height g.street_lines st 10 := by
  constructor <;> rfl

/-- C25: `detect_street_lines` calls `detect_line` exactly ten times, once for each slot
`0 .. 9` in increasing order, each time with the image, width and height it was given and on
the content the slot had before; the calls follow one another, each made in the hidden state
the one before left.  On return `num_street_lines` is the number of those ten calls of
`detect_line` that returned non-zero, whatever the globals held before, and every slot
holds what its call left in it. -/
theorem C25_ten_calls_counted {σ : Type} (detect_line : DetectLine σ) (image : Image)
    (width height : Int) (g : Globals) (st : σ) :
    (detect_street_lines detect_line image width height g st).calls
        = (List.finRange 10).map (fun i =>
            (⟨image, width, height, i,
              (nth_call detect_line image width height g.street_lines st i).ret,
              (nth_call detect_line image width height g.street_lines st i).line⟩ : Call))
      ∧ (detect_street_lines detect_line image width height g st).ext
        = ext_after detect_line image width height g.street_lines st 10
      ∧ (detect_street_lines detect_line image width height g st).g.num_street_lines
        = (((List.finRange 10).countP fun i =>
            decide ((nth_call detect_line image width height g.street_lines st i).ret ≠ 0)
            : Nat) : Int)
      ∧ (∀ i : Fin 10,
          (detect_street_lines detect_line image width height g st).g.street_lines i
            = (nth_call detect_line image width height g.street_lines st i).line)
      ∧ (detect_street_lines detect_line image width height g st).calls.length = 10
      ∧ (detect_street_lines detect_line image width height g st).calls.map
          (fun c => (c.slot : Nat))
        = [0, 1, 2, 3, 4, 5, 6, 7, 8, 9]
      ∧ (∀ c ∈ (detect_street_lines detect_line image width height g st).calls,
          c.image = image ∧ c.width = width ∧ c.height = height)
      ∧ (detect_street_lines detect_line image width height g st).g.num_street_lines
        = (((detect_street_lines detect_line image width height g st).calls.countP
            fun c => decide (c.ret ≠ 0) : Nat) : Int) := by
  unfold detect_street_lines
  rw [control_g, control_calls, control_ext]
  have hslots := detection_loop_slots detect_line image width height g st
  have hcalls := detection_loop_calls detect_line image width height g st
  have hcount : (detection_loop detect_line image width height g st).g.num_street_lines
      = (((detection_loop detect_line image width height g st).calls.countP
          fun c => decide (c.ret ≠ 0) : Nat) : Int) := by
    unfold detection_loop
    apply foldl_loop_count
    simp
  refine ⟨hcalls.1, hcalls.2, ?_, ?_, ?_, ?_, ?_, hcount⟩
  · rw [hcount, hcalls.1, List.countP_map]
    rfl
  · intro i
    have hmem : (⟨image, width, height, i,
          (nth_call detect_line image width height g.street_lines st i).ret,
          (nth_call detect_line image width height g.street_lines st i).line⟩ : Call)
        ∈ (detection_loop detect_line image width height g st).calls := by
      rw [hcalls.1]
      exact List.mem_map.2 ⟨i, List.mem_finRange i, rfl⟩
    exact detection_loop_recorded detect_line image width height g st _ hmem
  · have h := congrArg List.length hslots
    rw [List.length_map] at h
    rw [h]
    rfl
  · have h := congrArg (List.map (fun i : Fin 10 => (i : Nat))) hslots
    rw [List.map_map] at h
    exact h.trans (by decide)
  · unfold detection_loop
    apply foldl_loop_args
    intro c hc
    simp at hc

/-- C26: the midpoint tie-break.  With `num_street_lines == 1` and
`street_lines[0].x1 == width / 2` the commands are `turn_left` then `slow_down`; with
`num_street_lines >= 2` and `street_lines[0].x1 == width / 2` or
`street_lines[1].x1 == width / 2` the only command is `slow_down`. -/
theorem C26_midpoint_tie_break {σ : Type} (detect_line : DetectLine σ) (image : Image)
    (width height : Int) (g : Globals) (st : σ) :
    ((detection_loop detect_line image width height g st).g.num_street_lines = 1 →
        ((detection_loop detect_line image width height g st).g.street_lines 0).x1
          = Int.tdiv width 2 →
        (detect_street_lines detect_line image width height g st).cmds
          = [Command.TurnLeft, Command.SlowDown])
      ∧ (2 ≤ (detection_loop detect_line image width height g st).g.num_street_lines →
        (((detection_loop detect_line image width height g st).g.street_lines 0).x1
            = Int.tdiv width 2
          ∨ ((detection_loop detect_line image width height g st).g.street_lines 1).x1
            = Int.tdiv width 2) →
        (detect_street_lines detect_line image width height g st).cmds
          = [Command.SlowDown]) := by
  constructor
  · intro h1 hmid
    have hne : (detection_loop detect_line image width height g st).g.num_street_lines ≠ 0 := by
      rw [h1]; decide
    have hnlt : ¬ ((detection_loop detect_line image width height g st).g.street_lines 0).x1
        < Int.tdiv width 2 := by
      rw [hmid]; exact lt_irrefl _
    unfold detect_street_lines control
    rw [if_neg hne, if_pos h1, if_neg hnlt]
    simp [slow_down, turn_left, issue, detection_loop_cmds]
  · intro h2 hmid
    have h0 : (detection_loop detect_line image width height g st).g.num_street_lines ≠ 0 := by
      omega
    have h1 : (detection_loop detect_line image width height g st).g.num_street_lines ≠ 1 := by
      omega
    have hnot : ¬ (((detection_loop detect_line image width height g st).g.street_lines 0).x1
          < Int.tdiv width 2
        ∧ ((detection_loop detect_line image width height g st).g.street_lines 1).x1
          > Int.tdiv width 2) := by
      rintro ⟨ha, hb⟩
      rcases hmid with hm | hm
      · rw [hm] at ha; exact lt_irrefl _ ha
      · rw [hm] at hb; exact lt_irrefl _ hb
    unfold detect_street_lines control
    rw [if_neg h0, if_neg h1, if_neg hnot]
    simp [slow_down, issue, detection_loop_cmds]

/-- C26 at `width = 321` (midpoint `321 / 2 = 160`): one line at `x1 = 160`, and two lines at
`x1 = 50` and `x1 = 160`. -/
theorem C26_midpoint_tie_break_witness :
    (detect_street_lines (detect_first 160) [] 321 240 zero_globals ()).cmds
        = [Command.TurnLeft, Command.SlowDown]
      ∧ (detect_street_lines (detect_two 50 160) [] 321 240 zero_globals ()).cmds
        = [Command.SlowDown] :=
  ⟨(C26_midpoint_tie_break (detect_first 160) [] 321 240 zero_globals ()).1
      (by decide) (by decide),
   (C26_midpoint_tie_break (detect_two 50 160) [] 321 240 zero_globals ()).2
      (by decide) (Or.inr (by decide))⟩

/-- C28: for every format `f` among the `OV7670_COM7_FMT_*` values and every resolution `r`
among the `OV7670_COM7_RES_*` values, `(f | r) & OV7670_COM7_FMT_MASK == f` and
`(f | r) & OV7670_COM7_RES_MASK == r`, and two different pairs give two different register
values. -/
theorem C28_com7_fields_independent :
    (∀ f ∈ OV7670_COM7_FMT, ∀ r ∈ OV7670_COM7_RES,
        (f ||| r) &&& OV7670_COM7_FMT_MASK = f ∧ (f ||| r) &&& OV7670_COM7_RES_MASK = r)
      ∧ (∀ f ∈ OV7670_COM7_FMT, ∀ r ∈ OV7670_COM7_RES,
          ∀ f' ∈ OV7670_COM7_FMT, ∀ r' ∈ OV7670_COM7_RES,
            f ||| r = f' ||| r' → f = f' ∧ r = r') := by
  decide!

/-- C28 at the pair `camera_start_capture` writes: RGB565 at QVGA. -/
theorem C28_com7_fields_independent_witness :
    (OV7670_COM7_FMT_RGB565 ||| OV7670_COM7_RES_QVGA) &&& OV7670_COM7_FMT_MASK
        = OV7670_COM7_FMT_RGB565
      ∧ (OV7670_COM7_FMT_RGB565 ||| OV7670_COM7_RES_QVGA) &&& OV7670_COM7_RES_MASK
        = OV7670_COM7_RES_QVGA :=
  C28_com7_fields_independent.1 OV7670_COM7_FMT_RGB565 (by decide) OV7670_COM7_RES_QVGA
    (by decide)

/-! ## Buffer size (`src/src/main.c`) -/

/-- C21, evaluated on the code: `CAMERA_BUFFER_SIZE` is 1024, below the `320 * 240 * 2 =
153600` bytes of one QVGA frame at two bytes per pixel; it is also the `Size` of every
receive of `main`. -/
theorem C21_buffer_smaller_than_frame :
    CAMERA_BUFFER_SIZE = 1024
      ∧ CAMERA_BUFFER_SIZE < 320 * 240 * 2
      ∧ main_loop_pass sample_macros HAL_StatusTypeDef.HAL_OK
        = [Action.HAL_I2C_Master_Receive 0x42 1024 100 HAL_StatusTypeDef.HAL_OK] := by
  decide

/-! ## Order and error paths of the bring-up (`Core/Src/main.c`) -/

/-- C29, evaluated on the code: with every HAL call succeeding, `HAL_DMA_Start_IT` (line 144)
and `HAL_DCMI_Start_DMA` (line 147) are the 14th and 15th calls of `main`; `HAL_Init` (line
153) and the first calls of `SystemClock_Config` (line 196), `MX_GPIO_Init` (line 299),
`MX_DCMI_Init` (line 264) and `MX_DMA_Init` (line 281) all come after them. -/
theorem C29_capture_started_before_init :
    (H7.main H7.all_ok).phase = H7.Phase.looping
      ∧ H7.position H7.Routine.HAL_DMA_Start_IT 144 (H7.main H7.all_ok) = 13
      ∧ H7.position H7.Routine.HAL_DCMI_Start_DMA 147 (H7.main H7.all_ok) = 14
      ∧ H7.position H7.Routine.HAL_Init 153 (H7.main H7.all_ok) = 15
      ∧ H7.position H7.Routine.HAL_PWREx_ConfigSupply 196 (H7.main H7.all_ok) = 16
      ∧ H7.position H7.Routine.__HAL_RCC_GPIOE_CLK_ENABLE 299 (H7.main H7.all_ok) = 21
      ∧ H7.position H7.Routine.HAL_DCMI_Init 264 (H7.main H7.all_ok) = 25
      ∧ H7.position H7.Routine.__HAL_RCC_DMA1_CLK_ENABLE 281 (H7.main H7.all_ok) = 26 := by
  decide

/-! ## Pin set of the DCMI MSP (`stm32h7xx_hal_msp.c`) -/

/-- C30: `HAL_DCMI_MspDeInit` releases exactly the pins `HAL_DCMI_MspInit` configures, namely
PE4, PE5, PE6, PA6, PC6, PC7, PC8, PC9 and PD3; for a handle whose `Instance` is not `DCMI`
both functions do nothing. -/
theorem C30_msp_pin_sets (dma : HAL_StatusTypeDef) :
    H7.configured_pins (H7.HAL_DCMI_MspInit H7.Instance.DCMI dma) = H7.DCMI_pins
      ∧ H7.released_pins (H7.HAL_DCMI_MspDeInit H7.Instance.DCMI) = H7.DCMI_pins
      ∧ (∀ base : Nat,
          H7.HAL_DCMI_MspInit (H7.Instance.other base) dma = []
            ∧ H7.HAL_DCMI_MspDeInit (H7.Instance.other base) = []) := by
  refine ⟨?_, ?_, ?_⟩
  · cases dma <;> decide
  · decide
  · intro base
    exact ⟨rfl, rfl⟩

/-! ## Error paths of the bring-up (`Core/Src/main.c`) -/

theorem H7_halted_stays (hw : H7.Hardware) (s : H7.Run) (hs : s.phase = H7.Phase.halted) :
    H7.SystemClock_Config hw s = s ∧ H7.MX_GPIO_Init s = s ∧ H7.MX_DCMI_Init hw s = s
      ∧ H7.MX_DMA_Init s = s ∧ H7.main_loop s = s := by
  refine ⟨?_, ?_, ?_, ?_, ?_⟩ <;>
    simp [H7.SystemClock_Config, H7.MX_GPIO_Init, H7.MX_DCMI_Init, H7.MX_DMA_Init,
      H7.main_loop, H7.call_checked, H7.call_unchecked, H7.call, H7.wait_vosrdy,
      H7.Error_Handler, hs]

/-- C24: run on their own, `SystemClock_Config` calls `Error_Handler` exactly when
`HAL_RCC_OscConfig` (line 211) or `HAL_RCC_ClockConfig` (line 229) returns a status other
than `HAL_OK` (provided the wait loop of line 202 ends, without which neither call is made),
and `MX_DCMI_Init` exactly when `HAL_DCMI_Init` (line 264) does; the failing call is in the
trace with the status the hardware gave.  `Error_Handler` calls `__disable_irq` and then
stays in its endless loop: after a failed `HAL_RCC_OscConfig` the call of line 229 is never
made, and none of the routines that follow in `main` does anything more. -/
theorem C24_error_handler_iff (hw : H7.Hardware) :
    (hw.vosrdy_after ≠ none →
        (H7.error_reported (H7.SystemClock_Config hw H7.fresh) = true ↔
          hw.status 211 ≠ HAL_StatusTypeDef.HAL_OK ∨ hw.status 229 ≠ HAL_StatusTypeDef.HAL_OK))
      ∧ (hw.vosrdy_after = none →
        H7.error_reported (H7.SystemClock_Config hw H7.fresh) = false
          ∧ (H7.SystemClock_Config hw H7.fresh).phase = H7.Phase.waiting)
      ∧ (H7.error_reported (H7.MX_DCMI_Init hw H7.fresh) = true ↔
        hw.status 264 ≠ HAL_StatusTypeDef.HAL_OK)
      ∧ (H7.error_reported (H7.SystemClock_Config hw H7.fresh) = true ↔
        H7.call_failed H7.Routine.HAL_RCC_OscConfig (H7.SystemClock_Config hw H7.fresh)
          ∨ H7.call_failed H7.Routine.HAL_RCC_ClockConfig
              (H7.SystemClock_Config hw H7.fresh))
      ∧ (H7.error_reported (H7.MX_DCMI_Init hw H7.fresh) = true ↔
        H7.call_failed H7.Routine.HAL_DCMI_Init (H7.MX_DCMI_Init hw H7.fresh))
      ∧ (hw.vosrdy_after ≠ none →
        (⟨H7.Routine.HAL_RCC_OscConfig, 211, some (hw.status 211)⟩ : H7.Event)
            ∈ (H7.SystemClock_Config hw H7.fresh).trace
          ∧ (hw.status 211 = HAL_StatusTypeDef.HAL_OK →
            (⟨H7.Routine.HAL_RCC_ClockConfig, 229, some (hw.status 229)⟩ : H7.Event)
              ∈ (H7.SystemClock_Config hw H7.fresh).trace)
          ∧ (hw.status 211 ≠ HAL_StatusTypeDef.HAL_OK →
            ∀ e ∈ (H7.SystemClock_Config hw H7.fresh).trace, e.line ≠ 229))
      ∧ (H7.MX_DCMI_Init hw H7.fresh).trace.head?
        = some ⟨H7.Routine.HAL_DCMI_Init, 264, some (hw.status 264)⟩
      ∧ (H7.error_reported (H7.SystemClock_Config hw H7.fresh) = true →
        (H7.SystemClock_Config hw H7.fresh).phase = H7.Phase.halted)
      ∧ (H7.error_reported (H7.MX_DCMI_Init hw H7.fresh) = true →
        (H7.MX_DCMI_Init hw H7.fresh).phase = H7.Phase.halted)
      ∧ (∀ (line : Nat) (s : H7.Run), s.phase = H7.Phase.running →
        (H7.Error_Handler line s).trace
            = s.trace ++ [⟨H7.Routine.Error_Handler, line, none⟩,
                ⟨H7.Routine.__disable_irq, 318, none⟩]
          ∧ (H7.Error_Handler line s).phase = H7.Phase.halted)
      ∧ (∀ s : H7.Run, s.phase = H7.Phase.halted →
        H7.SystemClock_Config hw s = s ∧ H7.MX_GPIO_Init s = s ∧ H7.MX_DCMI_Init hw s = s
          ∧ H7.MX_DMA_Init s = s ∧ H7.main_loop s = s) := by
  obtain ⟨status, vos⟩ := hw
  refine ⟨?_, ?_, ?_, ?_, ?_, ?_, ?_, ?_, ?_, ?_, ?_⟩
  · intro hv
    cases vos with
    | none => exact absurd rfl hv
    | some n =>
      by_cases h1 : status 211 = HAL_StatusTypeDef.HAL_OK <;>
        by_cases h2 : status 229 = HAL_StatusTypeDef.HAL_OK <;>
        simp [H7.SystemClock_Config, H7.call_checked, H7.call_unchecked, H7.call,
          H7.wait_vosrdy, H7.Error_Handler, H7.error_reported, H7.fresh, h1, h2]
  · intro hv
    simp only at hv
    subst hv
    simp [H7.SystemClock_Config, H7.call_checked, H7.call_unchecked, H7.call,
      H7.wait_vosrdy, H7.Error_Handler, H7.error_reported, H7.fresh]
  · by_cases h1 : status 264 = HAL_StatusTypeDef.HAL_OK <;>
      simp [H7.MX_DCMI_Init, H7.call_checked, H7.call_unchecked, H7.Error_Handler,
        H7.error_reported, H7.fresh, h1]
  · cases vos with
    | none =>
      simp [H7.SystemClock_Config, H7.call_checked, H7.call_unchecked, H7.call,
        H7.wait_vosrdy, H7.Error_Handler, H7.error_reported, H7.call_failed, H7.fresh]
    | some n =>
      by_cases h1 : status 211 = HAL_StatusTypeDef.HAL_OK <;>
        by_cases h2 : status 229 = HAL_StatusTypeDef.HAL_OK <;>
        simp [H7.SystemClock_Config, H7.call_checked, H7.call_unchecked, H7.call,
          H7.wait_vosrdy, H7.Error_Handler, H7.error_reported, H7.call_failed, H7.fresh,
          h1, h2]
  · by_cases h1 : status 264 = HAL_StatusTypeDef.HAL_OK <;>
      simp [H7.MX_DCMI_Init, H7.call_checked, H7.call_unchecked, H7.Error_Handler,
        H7.error_reported, H7.call_failed, H7.fresh, h1]
  · intro hv
    cases vos with
    | none => exact absurd rfl hv
    | some n =>
      by_cases h1 : status 211 = HAL_StatusTypeDef.HAL_OK <;>
        by_cases h2 : status 229 = HAL_StatusTypeDef.HAL_OK <;>
        simp [H7.SystemClock_Config, H7.call_checked, H7.call_unchecked, H7.call,
          H7.wait_vosrdy, H7.Error_Handler, H7.fresh, h1, h2]
  · by_cases h1 : status 264 = HAL_StatusTypeDef.HAL_OK <;>
      simp [H7.MX_DCMI_Init, H7.call_checked, H7.call_unchecked, H7.Error_Handler,
        H7.fresh, h1]
  · cases vos with
    | none =>
      simp [H7.SystemClock_Config, H7.call_checked, H7.call_unchecked, H7.call,
        H7.wait_vosrdy, H7.Error_Handler, H7.error_reported, H7.fresh]
    | some n =>
      by_cases h1 : status 211 = HAL_StatusTypeDef.HAL_OK <;>
        by_cases h2 : status 229 = HAL_StatusTypeDef.HAL_OK <;>
        simp [H7.SystemClock_Config, H7.call_checked, H7.call_unchecked, H7.call,
          H7.wait_vosrdy, H7.Error_Handler, H7.error_reported, H7.fresh, h1, h2]
  · by_cases h1 : status 264 = HAL_StatusTypeDef.HAL_OK <;>
      simp [H7.MX_DCMI_Init, H7.call_checked, H7.call_unchecked, H7.Error_Handler,
        H7.error_reported, H7.fresh, h1]
  · intro line s hs
    simp [H7.Error_Handler, hs]
  · intro s hs
    exact H7_halted_stays _ s hs

/-- C24 at hardware on which `HAL_RCC_OscConfig` (line 211) returns `HAL_ERROR`:
`SystemClock_Config` calls `Error_Handler`, and `MX_DCMI_Init` run from there changes
nothing. -/
theorem C24_error_handler_iff_witness :
    H7.error_reported (H7.SystemClock_Config (H7.fails_at 211) H7.fresh) = true
      ∧ H7.MX_DCMI_Init (H7.fails_at 211) (H7.SystemClock_Config (H7.fails_at 211) H7.fresh)
        = H7.SystemClock_Config (H7.fails_at 211) H7.fresh :=
  ⟨((C24_error_handler_iff (H7.fails_at 211)).1 (by decide)).2 (Or.inl (by decide)),
   ((C24_error_handler_iff (H7.fails_at 211)).2.2.2.2.2.2.2.2.2.2
      (H7.SystemClock_Config (H7.fails_at 211) H7.fresh) (by decide)).2.2.1⟩

/-! ## Constants against their doc comments (`src/ov7670.h`) -/

/-- C22, evaluated on the code: `OV7670_VER_ADDRESS` is `0x0B` while the `@return` line of
its doc comment says `0x0A`.  The only other address constant outside what the `@return`
line above it states is `OV7670_RSVD_4E_ADDRESS` (`0x4E`), declared right after
`OV7670_RSVD_4D_ADDRESS` under a comment that says `@return 0x4D`. -/
theorem C22_ver_address_contradicts_doc :
    OV7670_ADDRESS_RETURN.map Prod.fst = OV7670_ADDRESS.map Prod.fst
      ∧ OV7670_ADDRESS.lookup "VER" = some 0x0B
      ∧ OV7670_ADDRESS_RETURN.lookup "VER" = some (some (0x0A, 0x0A))
      ∧ address_return_mismatches = [("VER", 0x0B), ("RSVD_4E", 0x4E)] := by
  decide!

/-- C23, evaluated on the code: `OV7670_AWBCTR0_RESET_VALUE` is `0x9F` while its doc comment
says `0110 1111` and `@return 0x6F`; `OV7670_VSTART_RESET_VALUE` is `0x02` as its `@return`
line says, while the bit pattern of the same comment is `0001 0010`, that is `0x12`.  Two
constants differ from their `@return` line and five documented patterns differ from it. -/
theorem C23_reset_values_contradict_doc :
    OV7670_RESET_VALUE.length = 144
      ∧ OV7670_RESET_VALUE.lookup "AWBCTR0_RESET_VALUE"
        = some (0x9F, 0x6F, [0, 1, 1, 0, 1, 1, 1, 1])
      ∧ bits_value [0, 1, 1, 0, 1, 1, 1, 1] = some 0x6F
      ∧ OV7670_RESET_VALUE.lookup "VSTART_RESET_VALUE"
        = some (OV7670_VSTART_RESET_VALUE, 0x02, [0, 0, 0, 1, 0, 0, 1, 0])
      ∧ bits_value [0, 0, 0, 1, 0, 0, 1, 0] = some 0x12
      ∧ reset_value_return_mismatches = ["AWBCTR0_RESET_VALUE", "RSVD_C8_RESET_VALUE_ONE"]
      ∧ reset_value_pattern_mismatches
        = ["VSTART_RESET_VALUE", "AEB_RESET_VALUE", "RSVD_98_RESET_VALUE",
           "RSVD_C8_RESET_VALUE_ONE", "RSVD_79_RESET_VALUE_FOUR"] := by
  decide!

end StreetLine
